import Mathlib

set_option allowUnsafeReducibility true

attribute [local semireducible] Rat.mul Rat.inv Rat.add Rat.sub Rat.neg Rat.ofScientific

/-!
Verification of the engagement-scoring and gamification engine of
Scroll Balance Pro (`src/app.js`), as a shallow embedding in Lean 4.

Modelling conventions:
* JavaScript numbers are modelled as `ℚ` where fractional arithmetic occurs
  (scores, ratios, multipliers), as `ℤ` for XP and integer scores, and as
  `Nat` for counters and millisecond timestamps.
* `Math.round` is `jsRound` (floor of `x + 1/2`, JavaScript rounds half up).
* `Date.now()` and `new Date(..).toDateString()` are passed in explicitly as
  a `now : Nat` argument and a `dayOf : Nat → String` argument.
* `Math.random()`-driven choices take an explicit `pick : Nat` argument and
  select with `pick % n`, covering every outcome the source can produce.
* JavaScript `Map` objects (the reddit cache, whose `data` and `expiresAt`
  maps are always updated in lockstep with the same key) are modelled as
  insertion-ordered association lists, matching `Map` iteration order.
* DOM rendering, toast display, chart drawing and `localStorage` persistence
  are presentation-layer effects with no feedback into the engine state and
  are not part of the state transition; emitted nudges are returned as data.
-/

/-- JavaScript `Math.round`: rounds half away from zero for positive numbers
(`Math.round(22.5) = 23`); on all reals it is `⌊x + 1/2⌋`. -/
def jsRound (q : ℚ) : ℤ := ⌊q + 1/2⌋

/-- JavaScript `arr.slice(-n)`: the last `n` elements (the whole list when it
is shorter than `n`). -/
def sliceLast (n : Nat) (l : List α) : List α := l.drop (l.length - n)

/-- JavaScript `arr.slice(0, -n)`: everything except the last `n` elements. -/
def sliceDropLast (n : Nat) (l : List α) : List α := l.take (l.length - n)

/-! ## RateLimiter (`src/app.js` lines 12-31)

```js
class RateLimiter {
    constructor(maxRequests, timeWindow) { ... this.requests = []; }
    async throttle() {
        const now = Date.now();
        this.requests = this.requests.filter(time => now - time < this.timeWindow);
        if (this.requests.length >= this.maxRequests) {
            const oldestRequest = this.requests[0];
            const waitTime = this.timeWindow - (now - oldestRequest);
            await new Promise(resolve => setTimeout(resolve, waitTime));
        }
        this.requests.push(Date.now());
    }
}
```

`throttle` is modelled as a function of the state and the current time `now`;
the `await` suspension is modelled by returning the completion time at which
`Date.now()` is pushed: `now + waitTime` when the window is full (an exact
`setTimeout` of `waitTime`), `now` otherwise. -/

structure RateLimiter where
  maxRequests : Nat
  timeWindow : Nat
  requests : List Nat
deriving Repr, DecidableEq

def RateLimiter.throttle (rl : RateLimiter) (now : Nat) : RateLimiter × Nat :=
  let reqs := rl.requests.filter (fun time => now - time < rl.timeWindow)
  if reqs.length ≥ rl.maxRequests then
    let oldestRequest := reqs.headD 0
    let waitTime := rl.timeWindow - (now - oldestRequest)
    let done := now + waitTime
    ({ rl with requests := reqs ++ [done] }, done)
  else
    ({ rl with requests := reqs ++ [now] }, now)

/-- A sequential run of `throttle` calls. Call `i` is issued at time `ts[i]`;
since each caller `await`s the previous completion before the next call can
run (single-threaded event loop), a call issued before the previous one
completed starts at the previous completion time (`max t clock`). Returns
the final limiter state and the completion time of the last call. -/
def runCalls (rl : RateLimiter) (clock : Nat) : List Nat → RateLimiter × Nat
  | [] => (rl, clock)
  | t :: ts =>
    let p := rl.throttle (max t clock)
    runCalls p.1 p.2 ts

/-- Number of recorded timestamps younger than `w` at time `t` (the
timestamps the sliding window still counts). -/
def youngCount (reqs : List Nat) (t w : Nat) : Nat :=
  (reqs.filter (fun x => t - x < w)).length

/-- The limiter instance used by the app: `new RateLimiter(30, 60000)`
(`src/app.js` line 101). -/
def redditLimiter : RateLimiter := ⟨30, 60000, []⟩

/-! ## Reddit content cache (`src/app.js` lines 104-107 and 1292-1340)

`this.redditCache = { data: new Map(), expiresAt: new Map() }`; both maps are
always written and deleted with the same key, so the pair is modelled as a
single insertion-ordered association list of `(key, value, expiresAt)`. -/

structure RedditCache (P : Type) where
  entries : List (String × P × Nat)
deriving Repr

def RedditCache.lookup (c : RedditCache P) (key : String) : Option (P × Nat) :=
  (c.entries.find? (fun e => e.1 = key)).map (·.2)

def RedditCache.keys (c : RedditCache P) : List String := c.entries.map (·.1)

/-- `Map.set`: updates in place when the key is present (JS `Map.set` keeps
the original insertion position), appends otherwise. -/
def RedditCache.set (c : RedditCache P) (key : String) (v : P) (exp : Nat) :
    RedditCache P :=
  if c.entries.any (fun e => e.1 = key) then
    ⟨c.entries.map (fun e => if e.1 = key then (key, v, exp) else e)⟩
  else
    ⟨c.entries ++ [(key, v, exp)]⟩

/-- Lines 1323-1332: store the fetched posts with `expiresAt = now + 5min`,
then `if (this.redditCache.data.size > 10)` delete
`this.redditCache.data.keys().next().value` — the first (earliest-inserted)
key — from both maps. -/
def RedditCache.store (c : RedditCache P) (key : String) (v : P) (now : Nat) :
    RedditCache P :=
  let c' := c.set key v (now + 5 * 60 * 1000)
  if c'.entries.length > 10 then ⟨c'.entries.tail⟩ else c'

/-- Result of one `fetchRealContent` call: the cache afterwards, whether the
external producer (`fetchRedditPosts`) was invoked, and the content shown. -/
structure FetchResult (P : Type) where
  cache : RedditCache P
  producerInvoked : Bool
  content : Option P

/-- `fetchRealContent` (lines 1292-1340), state/effect core. `producer` is
the outcome of `fetchRedditPosts`: `none` when it throws (error path, cache
unchanged), `some posts` otherwise. An empty `posts` array renders a message
and caches nothing; a non-empty one is cached for 5 minutes with the
size-10 FIFO eviction. -/
def fetchRealContent (c : RedditCache (List P)) (key : String) (now : Nat)
    (producer : Option (List P)) : FetchResult (List P) :=
  match c.lookup key with
  | some (v, expiresAt) =>
    if now < expiresAt then ⟨c, false, some v⟩
    else fetchMiss c key now producer
  | none => fetchMiss c key now producer
where
  fetchMiss (c : RedditCache (List P)) (key : String) (now : Nat)
      (producer : Option (List P)) : FetchResult (List P) :=
    match producer with
    | none => ⟨c, true, none⟩
    | some posts =>
      if posts.length = 0 then ⟨c, true, none⟩
      else ⟨c.store key posts now, true, some posts⟩

/-! ## Engagement data model (`src/app.js` lines 33-118)

`this.userData` plus the engine-level fields the scoring logic reads
(`historicalData`, `sessionStartTime`, `sessionAlignedCount`,
`lastCoachingMessage`). Content-memory, owl-companion and chart fields are
presentation state never read by the scoring/progression logic and are
omitted. -/

/-- A rating event as recorded by `rateContent` (lines 1713-1721). -/
structure Rating where
  id : String
  goal : String
  aligned : Bool
  rating : String
  timestamp : Nat
  hour : Nat
  sessionTime : Nat
deriving Repr, DecidableEq

/-- A mood check-in: `{mood, score}` where `score` is set from
`getMoodScore` at record time (line 3141). -/
structure MoodSample where
  mood : String
  score : ℚ
deriving Repr, DecidableEq

/-- One `hourlyEngagement` bucket (lines 68-73). -/
structure HourBucket where
  ratings : Nat
  valuable : Nat
  aligned : Nat
  skipped : Nat
deriving Repr, DecidableEq

/-- `dailyStats` (lines 588-594). -/
structure DailyStats where
  date : String
  screenTime : ℚ
  xpEarned : ℤ
  contentViewed : Nat
  wellnessScores : List ℤ
deriving Repr, DecidableEq

/-- A daily challenge (lines 300-335); `ctype` is the source field `type`,
renamed because `type` is a Lean keyword. -/
structure DailyChallenge where
  id : String
  name : String
  target : ℤ
  progress : ℤ
  ctype : String
  xpReward : ℤ
  date : String
deriving Repr, DecidableEq

/-- An `activityHistory` entry (line 2041); `actType` is the source field
`type`. -/
structure Activity where
  actType : String
  title : String
  time : Nat
deriving Repr, DecidableEq

/-- `this.userData` (lines 35-84), restricted to the fields the
scoring/progression/nudge logic reads or writes. -/
structure UserData where
  xp : ℤ
  level : ℤ
  streak : ℤ
  goals : List String
  wellnessScore : ℤ
  screenTime : ℚ
  sessionStart : Nat
  moodHistory : List MoodSample
  activityHistory : List Activity
  contentRatings : List Rating
  dailyStats : DailyStats
  achievements : List String
  unlockedBadges : List String
  dailyChallenge : Option DailyChallenge
  challengeProgress : ℤ
  totalContentRated : Nat
  totalValuableContent : Nat
  sessionRatings : List Rating
  lastNudgeTime : Nat
  mindlessScrollDetected : Nat
  qualityStreakCurrent : Nat
  qualityStreakBest : Nat
  hourlyEngagement : List HourBucket
deriving Repr, DecidableEq

/-- The engine instance: `userData` plus `this.historicalData` (an
insertion-ordered object mapping date keys to day records, of which the
engine reads only `wellnessScore`) and the session-coaching fields. -/
structure App where
  userData : UserData
  historicalData : List (String × ℤ)
  sessionStartTime : Nat
  sessionAlignedCount : Nat
  lastCoachingMessage : Option String
deriving Repr, DecidableEq

/-- `getMoodScore` (lines 3149-3159). -/
def getMoodScore (mood : String) : ℚ :=
  if mood = "energized" then 90
  else if mood = "happy" then 85
  else if mood = "focused" then 80
  else if mood = "calm" then 75
  else if mood = "tired" then 50
  else if mood = "stressed" then 40
  else 70

/-! ## calculateWellnessScore (`src/app.js` lines 704-865)

The seven factor terms are given one definition each, summed by
`wellnessFactorSum`; `calculateWellnessScore` then rounds, clamps to
[20,100], blends with the previous score and updates the state, exactly
following lines 842-864. -/

/-- Factor 1, goal alignment (lines 716-725). -/
def goalAlignmentScore (u : UserData) : ℚ :=
  let recentRatings := sliceLast 20 u.contentRatings
  let alignedRatings := (recentRatings.filter (fun r => r.aligned)).length
  let ratioAligned : ℚ := (alignedRatings : ℚ) / ((max recentRatings.length 1 : Nat) : ℚ)
  let goalScore := ratioAligned * 25
  let goalScore := if ratioAligned > 0.8 then goalScore + 5 else goalScore
  min goalScore 30

/-- Factor 2, time management (lines 727-746). -/
def timeManagementScore (u : UserData) : ℚ :=
  let dailyHours : ℚ := u.dailyStats.screenTime / 3600
  if dailyHours = 0 then 15
  else if dailyHours < 1 then 18
  else if dailyHours ≤ 2 then 20
  else if dailyHours ≤ 3 then 17
  else if dailyHours ≤ 4 then 12
  else if dailyHours ≤ 6 then 7
  else max 0 (7 - (dailyHours - 6) * 2)

/-- Factor 3, mood trajectory (lines 748-775). `m.score || getMoodScore(m.mood)`
falls back exactly when the stored score is falsy, i.e. `0`. -/
def moodTrajectoryScore (u : UserData) : ℚ :=
  let recentMoods := sliceLast 10 u.moodHistory
  let moodScore : ℚ :=
    if recentMoods.length ≥ 3 then
      let moodScores := recentMoods.map
        (fun m => if m.score = 0 then getMoodScore m.mood else m.score)
      let recentAvg := (sliceLast 3 moodScores).sum / 3
      let olderAvg := (sliceDropLast 3 moodScores).sum /
        ((max (moodScores.length - 3) 1 : Nat) : ℚ)
      let base : ℚ :=
        if recentAvg > olderAvg then 15
        else if recentAvg ≥ 75 then 13
        else if recentAvg ≥ 60 then 10
        else 7
      let recentPositive := ((sliceLast 3 recentMoods).filter
        (fun m => ["energized", "calm", "focused", "happy"].contains m.mood)).length
      if recentPositive = 3 then base + 3 else base
    else 10
  min moodScore 18

/-- Factor 4, engagement quality (lines 777-793). -/
def engagementQualityScore (u : UserData) : ℚ :=
  let recentRatings := sliceLast 20 u.contentRatings
  if recentRatings.length > 0 then
    let valuableCount := (recentRatings.filter (fun r => r.rating = "valuable")).length
    let ratioValuable : ℚ := (valuableCount : ℚ) / (recentRatings.length : ℚ)
    let engagementScore := ratioValuable * 15
    let skipCount := (recentRatings.filter (fun r => r.rating = "skip")).length
    let ratioSkip : ℚ := (skipCount : ℚ) / (recentRatings.length : ℚ)
    if ratioSkip > 0.7 then engagementScore * 0.7 else engagementScore
  else 7

/-- Factor 5, consistency bonus (lines 795-813). `Object.keys` order on
string date keys is insertion order, so the last five keys index the last
five `historicalData` entries. -/
def consistencyScore (app : App) : ℚ :=
  let u := app.userData
  let fromStreak : ℚ :=
    if u.streak ≥ 7 then 5
    else if u.streak ≥ 3 then 3
    else if u.streak ≥ 1 then 1
    else 0
  let historicalDates := app.historicalData.map (fun e => e.1)
  let fromHistory : ℚ :=
    if historicalDates.length ≥ 5 then
      let recentScores := (sliceLast 5 app.historicalData).map (fun e => (e.2 : ℚ))
      let avgScore := recentScores.sum / (recentScores.length : ℚ)
      if avgScore ≥ 75 then 5 else 0
    else 0
  fromStreak + fromHistory

/-- Factor 6, content diversity (lines 815-826); `new Set(..).size` is the
number of distinct goals. -/
def contentDiversityScore (u : UserData) : ℚ :=
  let recentRatings := sliceLast 20 u.contentRatings
  let diversityScore : ℚ :=
    if recentRatings.length ≥ 10 then
      let goalTypes := (recentRatings.map (fun r => r.goal)).eraseDups
      let ratioDiversity : ℚ := (goalTypes.length : ℚ) / 5
      let d := ratioDiversity * 10
      if goalTypes.length ≥ 3 then d + 2 else d
    else 5
  min diversityScore 12

/-- Factor 7, recency weighting (lines 828-840). -/
def recencyScore (u : UserData) (now : Nat) : ℚ :=
  let lastHourRatings := u.contentRatings.filter
    (fun r => now - r.timestamp < 3600000)
  if lastHourRatings.length > 0 then
    let recentAligned := (lastHourRatings.filter
      (fun r => r.aligned && r.rating = "valuable")).length
    let ratioRecent : ℚ := (recentAligned : ℚ) / (lastHourRatings.length : ℚ)
    ratioRecent * 5
  else 2

/-- The accumulated `score` just before the final adjustments (line 842). -/
def wellnessFactorSum (app : App) (now : Nat) : ℚ :=
  goalAlignmentScore app.userData + timeManagementScore app.userData +
  moodTrajectoryScore app.userData + engagementQualityScore app.userData +
  consistencyScore app + contentDiversityScore app.userData +
  recencyScore app.userData now

/-- Lines 844-845: `score = Math.round(score); score = Math.max(20,
Math.min(100, score))`. -/
def rawWellnessScore (app : App) (now : Nat) : ℤ :=
  max 20 (min 100 (jsRound (wellnessFactorSum app now)))

/-- Lines 847-849: the smoothed score
`Math.round(previousScore * 0.3 + score * 0.7)` where `previousScore` is
`this.userData.wellnessScore || 85` (the `|| 85` fires exactly on the falsy
previous score `0`). -/
def nextWellnessScore (app : App) (now : Nat) : ℤ :=
  let raw := rawWellnessScore app now
  let previousScore : ℤ :=
    if app.userData.wellnessScore = 0 then 85 else app.userData.wellnessScore
  jsRound ((previousScore : ℚ) * 0.3 + (raw : ℚ) * 0.7)

/-- `calculateWellnessScore` (lines 704-865): returns the updated engine
state and the score. Lines 853-862 push the new score into
`dailyStats.wellnessScores` only when the last recorded sample is absent,
falsy, or differs by more than 1, trimming to the last 100. -/
def calculateWellnessScore (app : App) (now : Nat) : App × ℤ :=
  let u := app.userData
  let score := nextWellnessScore app now
  let scores := u.dailyStats.wellnessScores
  let shouldPush :=
    match scores.getLast? with
    | none => true
    | some lastScore => lastScore = 0 ∨ (lastScore - score).natAbs > 1
  let scores' :=
    if shouldPush then
      let pushed := scores ++ [score]
      if pushed.length > 100 then sliceLast 100 pushed else pushed
    else scores
  let u' := { u with
    wellnessScore := score,
    dailyStats := { u.dailyStats with wellnessScores := scores' } }
  ({ app with userData := u' }, score)

/-- The denominators of the division expressions `calculateWellnessScore`
evaluates on a given state, in source order: goal-alignment ratio, daily
hours, mood averages (only when ≥3 samples), valuable and skip ratios (only
when recent ratings exist), historical average (only when ≥5 dates),
diversity ratio, and the last-hour ratio (only when such ratings exist). -/
def wellnessRatioDenominators (app : App) (now : Nat) : List ℚ :=
  let u := app.userData
  let recentRatings := sliceLast 20 u.contentRatings
  let recentMoods := sliceLast 10 u.moodHistory
  let lastHourRatings := u.contentRatings.filter
    (fun r => now - r.timestamp < 3600000)
  [((max recentRatings.length 1 : Nat) : ℚ), 3600] ++
  (if recentMoods.length ≥ 3 then
    [3, ((max (recentMoods.length - 3) 1 : Nat) : ℚ)] else []) ++
  (if recentRatings.length > 0 then
    [(recentRatings.length : ℚ), (recentRatings.length : ℚ)] else []) ++
  (if app.historicalData.length ≥ 5 then
    [((sliceLast 5 app.historicalData).length : ℚ)] else []) ++
  [5] ++
  (if lastHourRatings.length > 0 then [(lastHourRatings.length : ℚ)] else [])

/-- The constructor state (lines 35-84) with `loadDailyStats` and
`loadHistoricalData` taking their no-saved-data defaults (lines 578-617):
fresh daily stats with `wellnessScores = [85]`, and seven baseline
historical days at wellness 85 whose date keys are `histKeys`. -/
def freshUserData (sessionStart : Nat) (today : String) : UserData where
  xp := 0
  level := 1
  streak := 0
  goals := ["learn", "chill"]
  wellnessScore := 85
  screenTime := 0
  sessionStart := sessionStart
  moodHistory := []
  activityHistory := []
  contentRatings := []
  dailyStats := ⟨today, 0, 0, 0, [85]⟩
  achievements := []
  unlockedBadges := []
  dailyChallenge := none
  challengeProgress := 0
  totalContentRated := 0
  totalValuableContent := 0
  sessionRatings := []
  lastNudgeTime := 0
  mindlessScrollDetected := 0
  qualityStreakCurrent := 0
  qualityStreakBest := 0
  hourlyEngagement := List.replicate 24 ⟨0, 0, 0, 0⟩

/-- A freshly constructed engine (lines 33-118). -/
def freshApp (sessionStart : Nat) (today : String) (histKeys : List String) : App where
  userData := freshUserData sessionStart today
  historicalData := histKeys.map (fun k => (k, 85))
  sessionStartTime := sessionStart
  sessionAlignedCount := 0
  lastCoachingMessage := none

/-! ## Achievements (`src/app.js` lines 140-288) -/

/-- JS `String.prototype.includes` on the character lists: does `pat` occur
as a contiguous substring? -/
def listHasSub (pat : List Char) : List Char → Bool
  | [] => pat.isEmpty
  | c :: rest => pat.isPrefixOf (c :: rest) || listHasSub pat rest

/-- `s.includes(pat)`. -/
def jsIncludes (s pat : String) : Bool := listHasSub pat.toList s.toList

/-- One achievement definition: `{id, name, condition, xpReward}` (the
`description` and `icon` fields are display-only). -/
structure AchievementDef where
  id : String
  name : String
  condition : UserData → Bool
  xpReward : ℤ

/-- `getAchievementDefinitions` (lines 141-253), the full static catalog in
source order. -/
def achievementDefinitions : List AchievementDef := [
  ⟨"first_rating", "First Steps", fun u => u.totalContentRated ≥ 1, 50⟩,
  ⟨"quality_curator_10", "Quality Curator", fun u => u.totalValuableContent ≥ 10, 100⟩,
  ⟨"quality_curator_50", "Master Curator", fun u => u.totalValuableContent ≥ 50, 250⟩,
  ⟨"streak_7", "Week Warrior", fun u => u.streak ≥ 7, 200⟩,
  ⟨"streak_30", "Month Master", fun u => u.streak ≥ 30, 500⟩,
  ⟨"quality_streak_5", "On a Roll", fun u => u.qualityStreakBest ≥ 5, 150⟩,
  ⟨"quality_streak_10", "Unstoppable", fun u => u.qualityStreakBest ≥ 10, 300⟩,
  ⟨"level_5", "Intermediate", fun u => u.level ≥ 5, 100⟩,
  ⟨"level_10", "Advanced User", fun u => u.level ≥ 10, 300⟩,
  ⟨"wellness_80", "Mindful Master", fun u => u.wellnessScore ≥ 80, 150⟩,
  ⟨"wellness_90", "Zen Master", fun u => u.wellnessScore ≥ 90, 350⟩,
  ⟨"daily_challenge_1", "Challenge Accepted",
    fun u => (u.achievements.filter (fun a => jsIncludes a "daily_complete")).length ≥ 1, 100⟩,
  ⟨"alignment_master", "Alignment Master",
    fun u =>
      let recent := sliceLast 20 u.contentRatings
      if recent.length < 10 then false
      else
        let aligned := (recent.filter (fun r => r.aligned)).length
        decide (((aligned : ℚ) / (recent.length : ℚ)) ≥ 0.9), 400⟩]

/-- `addActivity` (lines 2040-2047): push `{type, title, time}` and trim the
history to the last 50 entries. -/
def addActivity (u : UserData) (actType title : String) (time : Nat) : UserData :=
  let hist := u.activityHistory ++ [⟨actType, title, time⟩]
  let hist := if hist.length > 50 then sliceLast 50 hist else hist
  { u with activityHistory := hist }

/-- One iteration of the `definitions.forEach` loop of `checkAchievements`
(lines 259-272): skip ids already unlocked, otherwise evaluate the
condition against the current (mid-loop) state and on success push the id,
add the XP and record the activity. -/
def achStep (now : Nat) (acc : UserData) (d : AchievementDef) : UserData :=
  if acc.achievements.contains d.id then acc
  else if d.condition acc then
    addActivity
      { acc with
        achievements := acc.achievements ++ [d.id],
        xp := acc.xp + d.xpReward }
      "achievement" ("🏆 Unlocked: " ++ d.name) now
  else acc

/-- The full `definitions.forEach` loop. -/
def runAchievementDefs (ds : List AchievementDef) (u : UserData) (now : Nat) : UserData :=
  ds.foldl (achStep now) u

/-- `checkAchievements` (lines 255-280). After the loop the source shows the
unlock toasts, calls `this.checkLevelUp()` — a method defined nowhere in the
repository, so a non-empty unlock batch throws a `TypeError` *after* all the
state mutations above have been applied — and saves; none of that changes
the engagement state. -/
def checkAchievements (u : UserData) (now : Nat) : UserData :=
  runAchievementDefs achievementDefinitions u now

/-! ## Daily challenge (`src/app.js` lines 290-393) -/

/-- The four challenge templates (lines 299-336); `description` and display
fields omitted, `date` is filled in on selection. -/
def challengeTemplates : List DailyChallenge := [
  ⟨"rate_10", "Rate 10 items", 10, 0, "ratings", 100, ""⟩,
  ⟨"valuable_7", "Find 7 gems", 7, 0, "valuable", 150, ""⟩,
  ⟨"alignment_80", "80% Alignment", 80, 0, "alignment", 120, ""⟩,
  ⟨"mindful_session", "Mindful Session", 5, 0, "perfect_session", 200, ""⟩]

/-- `generateDailyChallenge` (lines 290-345). `challenges[Math.floor(
Math.random() * challenges.length)]` is modelled by the explicit index
`pick % 4`. -/
def generateDailyChallenge (u : UserData) (today : String) (pick : Nat) : UserData :=
  let haveToday : Bool := match u.dailyChallenge with
    | some c => c.date == today
    | none => false
  if haveToday then u
  else
    let challenge := challengeTemplates.getD (pick % 4)
      ⟨"rate_10", "Rate 10 items", 10, 0, "ratings", 100, ""⟩
    { u with
      dailyChallenge := some { challenge with date := today },
      challengeProgress := 0 }

/-- The completion marker pushed into `achievements`:
`` `daily_complete_${challenge.date}` `` (line 385). -/
def dailyCompleteMarker (date : String) : String := "daily_complete_" ++ date

/-- The `switch (challenge.type)` block of `updateDailyChallengeProgress`
(lines 359-380): progress recomputed from scratch over today's ratings; a
type string outside the four cases leaves the initial `let progress = 0`. -/
def challengeProgressValue (challenge : DailyChallenge) (todayRatings : List Rating) : ℤ :=
  if challenge.ctype = "ratings" then todayRatings.length
  else if challenge.ctype = "valuable" then
    (todayRatings.filter (fun r => r.rating = "valuable")).length
  else if challenge.ctype = "alignment" then
    let aligned := (todayRatings.filter (fun r => r.aligned)).length
    if todayRatings.length > 0 then
      jsRound (((aligned : ℚ) / (todayRatings.length : ℚ)) * 100)
    else 0
  else if challenge.ctype = "perfect_session" then
    (todayRatings.filter (fun r => r.rating = "valuable")).length
  else 0

/-- `updateDailyChallengeProgress` (lines 347-393). `today` is
`new Date().toDateString()` and `dayOf ts` is
`new Date(ts).toDateString()`. Progress is recomputed from scratch from
today's ratings by challenge type; the completion branch fires only when
`progress ≥ target` and the day's marker is not yet recorded, then pushes
the marker, adds the bonus XP and re-checks achievements. -/
def updateDailyChallengeProgress (u : UserData) (today : String)
    (dayOf : Nat → String) (pick : Nat) (now : Nat) : UserData :=
  match u.dailyChallenge with
  | none => u
  | some challenge =>
    if challenge.date ≠ today then generateDailyChallenge u today pick
    else
      let progress := challengeProgressValue challenge
        (u.contentRatings.filter (fun r => dayOf r.timestamp = today))
      let u := { u with dailyChallenge := some { challenge with progress := progress } }
      if progress ≥ challenge.target ∧
          ¬ (u.achievements.contains (dailyCompleteMarker challenge.date) = true) then
        let u := { u with
          achievements := u.achievements ++ [dailyCompleteMarker challenge.date],
          xp := u.xp + challenge.xpReward }
        checkAchievements u now
      else u

/-! ## Live coaching and mindless-scroll detection
(`src/app.js` lines 1855-1927) -/

/-- The positive-reinforcement message pool (lines 1875-1880). -/
def positiveMessages : List String := [
  "🌟 You\x27re in the zone! Great content choices!",
  "✨ Excellent flow! You\x27re riding the algorithm perfectly.",
  "🎯 Amazing alignment! Keep this momentum going!",
  "🚀 You\x27re on fire! Quality content streak!"]

/-- `provideLiveCoaching` (lines 1855-1906). Note the course-correction
branch increments `mindlessScrollDetected` even when the message is then
suppressed as a duplicate; `lastNudgeTime` and `lastCoachingMessage` are
updated only when the toast actually shows. -/
def provideLiveCoaching (app : App) (now : Nat) (pick : Nat) : App :=
  let u := app.userData
  let sessionDuration : ℚ := ((now - app.sessionStartTime : Nat) : ℚ) / 1000 / 60
  if now - u.lastNudgeTime < 120000 then app
  else
    let recentRatings := sliceLast 10 u.sessionRatings
    if recentRatings.length < 5 then app
    else
      let valuableCount := (recentRatings.filter (fun r => r.rating = "valuable")).length
      let alignedCount := (recentRatings.filter (fun r => r.aligned)).length
      let valuableRate : ℚ := (valuableCount : ℚ) / (recentRatings.length : ℚ)
      let alignedRate : ℚ := (alignedCount : ℚ) / (recentRatings.length : ℚ)
      let step : Option String × UserData :=
        if valuableRate ≥ 0.8 ∧ alignedRate ≥ 0.8 then
          (some (positiveMessages.getD (pick % 4) ""), u)
        else if valuableRate < 0.3 ∧ recentRatings.length ≥ 8 then
          (some "💭 Noticed you\x27re skipping a lot. Need a mental break?",
           { u with mindlessScrollDetected := u.mindlessScrollDetected + 1 })
        else if sessionDuration > 30 ∧ valuableRate < 0.5 then
          (some "🧘 You\x27ve been scrolling for a while. Quick stretch?", u)
        else if u.qualityStreakCurrent = 5 then
          (some "🎯 5 in a row! You\x27re building quality habits!", u)
        else (none, u)
      match step with
      | (some m, u') =>
        if ¬ (app.lastCoachingMessage = some m) then
          { app with
            userData := { u' with lastNudgeTime := now },
            lastCoachingMessage := some m }
        else { app with userData := u' }
      | (none, u') => { app with userData := u' }

/-- `detectMindlessScrolling` (lines 1908-1927). Returns the new state and
whether the 🌊 Slow Down course-correction toast was shown. The guard
`if (recent.length < 15) return` means the detector only ever acts once the
session holds at least 15 ratings, and it inspects only the last 15; there
is no cooldown check on this path. -/
def detectMindlessScrolling (app : App) (now : Nat) : App × Bool :=
  let u := app.userData
  let recent := sliceLast 15 u.sessionRatings
  if recent.length < 15 then (app, false)
  else
    let lastMinute := recent.filter (fun r => now - r.timestamp < 60000)
    if lastMinute.length ≥ 10 then
      let skipRate : ℚ :=
        ((lastMinute.filter (fun r => r.rating = "skip")).length : ℚ) /
          (lastMinute.length : ℚ)
      if skipRate > 0.7 then
        ({ app with userData := { u with
            mindlessScrollDetected := u.mindlessScrollDetected + 1,
            lastNudgeTime := now } }, true)
      else (app, false)
    else (app, false)

/-! ## rateContent (`src/app.js` lines 1706-1829) -/

/-- Lines 1723-1729: append the rating event to the ledgers and bump the
total counters. -/
def pushRatingEvent (u : UserData) (ratingData : Rating) (rating : String) : UserData :=
  let u := { u with
    contentRatings := u.contentRatings ++ [ratingData],
    sessionRatings := u.sessionRatings ++ [ratingData],
    totalContentRated := u.totalContentRated + 1 }
  if rating = "valuable" then
    { u with totalValuableContent := u.totalValuableContent + 1 }
  else u

/-- Lines 1731-1736: update the hourly engagement bucket of `currentHour`. -/
def bumpHourlyEngagement (u : UserData) (rating : String) (aligned : Bool)
    (currentHour : Nat) : UserData :=
  { u with hourlyEngagement := u.hourlyEngagement.mapIdx (fun i (b : HourBucket) =>
      if i = currentHour then
        { b with
          ratings := b.ratings + 1,
          valuable := if rating = "valuable" then b.valuable + 1 else b.valuable,
          aligned := if aligned then b.aligned + 1 else b.aligned,
          skipped := if rating = "skip" then b.skipped + 1 else b.skipped }
      else b) }

/-- Lines 1738-1747: track the quality streak. -/
def updateQualityStreak (u : UserData) (rating : String) (aligned : Bool) : UserData :=
  if rating = "valuable" ∧ aligned = true then
    let cur := u.qualityStreakCurrent + 1
    { u with
      qualityStreakCurrent := cur,
      qualityStreakBest := max u.qualityStreakBest cur }
  else { u with qualityStreakCurrent := 0 }

/-- Lines 1749-1776: award XP with the streak multipliers and record the
XP activity. -/
def awardRatingXP (u : UserData) (aligned : Bool) (rating : String) (now : Nat) : UserData :=
  if rating = "valuable" then
    let baseXP : ℚ := if aligned then 15 else 5
    let multiplier : ℚ :=
      if u.streak ≥ 30 then 3 else if u.streak ≥ 7 then 2 else 1
    let multiplier : ℚ :=
      if u.qualityStreakCurrent ≥ 5 then multiplier + 0.5 else multiplier
    let xpGained := jsRound (baseXP * multiplier)
    let u := { u with xp := u.xp + xpGained }
    let bonusText :=
      if multiplier > 1 then " (" ++ toString multiplier ++ "x bonus!)" else ""
    addActivity u "xp" ("Earned " ++ toString xpGained ++ " XP" ++ bonusText) now
  else if rating = "skip" then
    if aligned = false then { u with xp := u.xp + 3 } else u
  else u

/-- The recording half of `rateContent` (lines 1707-1814): record the
rating event, bump the counters and hourly buckets, update the quality
streak and `sessionAlignedCount`, award the rating XP with the streak
multipliers, and bump `dailyStats.contentViewed`. Card animation, DOM
updates and the owl-companion triggers touch no engagement state and are
not modelled. -/
def recordRatingStage (app : App) (contentId goal : String) (aligned : Bool)
    (rating : String) (now currentHour : Nat) : App :=
  let ratingData : Rating :=
    ⟨contentId, goal, aligned, rating, now, currentHour, now - app.sessionStartTime⟩
  let u := pushRatingEvent app.userData ratingData rating
  let u := bumpHourlyEngagement u rating aligned currentHour
  let u := updateQualityStreak u rating aligned
  let alignedInc : Nat := if rating = "valuable" ∧ aligned = true then 1 else 0
  let u := awardRatingXP u aligned rating now
  let u := { u with dailyStats :=
    { u.dailyStats with contentViewed := u.dailyStats.contentViewed + 1 } }
  { app with
    userData := u,
    sessionAlignedCount := app.sessionAlignedCount + alignedInc }

/-- `rateContent` continued: the trailing pipeline of lines 1811-1828,
`contentViewed++/score → updateDailyChallengeProgress → checkAchievements →
provideLiveCoaching → detectMindlessScrolling`, applied after the recording
stage, in source order. -/
def rateContent (app : App) (contentId goal : String) (aligned : Bool)
    (rating : String) (now currentHour : Nat) (today : String)
    (dayOf : Nat → String) (pick pickMsg : Nat) : App :=
  let app := recordRatingStage app contentId goal aligned rating now currentHour
  let app := (calculateWellnessScore app now).1
  let app := { app with
    userData := updateDailyChallengeProgress app.userData today dayOf pick now }
  let app := { app with userData := checkAchievements app.userData now }
  let app := provideLiveCoaching app now pickMsg
  (detectMindlessScrolling app now).1

/-! ## Concrete states and auxiliary relations used by the theorems -/

/-- A state with one rating and the default previous score 85, used to
instantiate C1. -/
def oneRatingApp : App :=
  { freshApp 0 "D0" [] with
    userData := { freshUserData 0 "D0" with
      contentRatings := [⟨"x", "learn", true, "valuable", 0, 0, 0⟩] } }

def limiterInv (rl : RateLimiter) (clock : Nat) : Prop :=
  rl.requests.Pairwise (· ≤ ·) ∧ (∀ x ∈ rl.requests, x ≤ clock) ∧
  youngCount rl.requests clock rl.timeWindow ≤ rl.maxRequests

/-- A full cache of ten distinct entries, for the C4 witness. -/
def tenEntryCache : RedditCache Nat :=
  ⟨(List.range 10).map (fun i => (toString i, i, 1000))⟩

/-- A cache holding one fresh entry for key `"k"`, for the C5 witness. -/
def oneEntryCache : RedditCache (List Nat) := ⟨[("k", [1], 5000)]⟩

/-- Number of `daily_complete` markers, the only part of `achievements` an
achievement condition reads (`daily_challenge_1`). -/
def dailyCount (u : UserData) : Nat :=
  (u.achievements.filter (fun a => jsIncludes a "daily_complete")).length

/-- `v` differs from `u` at most in `achievements`, `xp` and
`activityHistory` — the only fields the `checkAchievements` loop writes. -/
def achievementsOnlyDiff (u v : UserData) : Prop :=
  v = { u with
    achievements := v.achievements,
    xp := v.xp,
    activityHistory := v.activityHistory }

/-- A completed rate-10 challenge whose day marker is already recorded, for
the C6 witness. -/
def completedChallengeUser : UserData :=
  { freshUserData 0 "D0" with
    dailyChallenge := some ⟨"rate_10", "Rate 10 items", 10, 0, "ratings", 100, "D0"⟩,
    achievements := ["daily_complete_D0"],
    contentRatings := (List.range 10).map
      (fun i => ⟨toString i, "learn", true, "valuable", 50, 12, 0⟩) }

/-- A session of exactly 10 ratings — 8 skips and 2 valuable, all within
the last 60 seconds of `now = 100000` — satisfying the premise of C8 as
stated (≥10 events in the window, skip-ratio 0.8 > 0.7). -/
def tenRatingSession : App :=
  { freshApp 0 "D0" [] with
    userData := { freshUserData 0 "D0" with
      sessionRatings :=
        (List.range 8).map (fun i => ⟨toString i, "learn", false, "skip", 99000, 12, 0⟩)
        ++ [⟨"8", "learn", true, "valuable", 99000, 12, 0⟩,
            ⟨"9", "learn", true, "valuable", 99000, 12, 0⟩] } }

/-- A session of 15 ratings — 12 skips and 3 valuable, all within the last
60 seconds of `now = 100000` — for the amended-C8 witness. -/
def fifteenRatingSession : App :=
  { freshApp 0 "D0" [] with
    userData := { freshUserData 0 "D0" with
      sessionRatings :=
        (List.range 12).map (fun i => ⟨toString i, "learn", false, "skip", 99000, 12, 0⟩)
        ++ (List.range 3).map
            (fun i => ⟨toString (12 + i), "learn", true, "valuable", 99000, 12, 0⟩) } }

/-- `b` differs from `a` at most in the nudge-tracking fields — all either
`provideLiveCoaching` or `detectMindlessScrolling` ever writes. -/
def nudgeOnlyDiff (a b : App) : Prop :=
  b = { a with
    userData := { a.userData with
      mindlessScrollDetected := b.userData.mindlessScrollDetected,
      lastNudgeTime := b.userData.lastNudgeTime },
    lastCoachingMessage := b.lastCoachingMessage }

def qualityRunStart : App :=
  freshApp 1000000000 "D0" ["h1", "h2", "h3", "h4", "h5", "h6", "h7"]

def qualityStep (a : App) (i : Nat) : App :=
  rateContent a (toString i) "learn" true "valuable" 1000000000 12 "D0"
    (fun _ => "D0") 0 0

def qualityRun : App := (List.range 20).foldl qualityStep qualityRunStart

def midRating (i : Nat) : Rating :=
  ⟨toString i, "learn", true, "valuable", 1000000000, 12, 0⟩

def midQualityState : App :=
  { userData := {
      xp := 1348, level := 1, streak := 0, goals := ["learn", "chill"],
      wellnessScore := 83, screenTime := 0, sessionStart := 1000000000,
      moodHistory := [],
      activityHistory := [
        ⟨"xp", "Earned 15 XP", 1000000000⟩,
        ⟨"achievement", "🏆 Unlocked: First Steps", 1000000000⟩,
        ⟨"achievement", "🏆 Unlocked: Mindful Master", 1000000000⟩,
        ⟨"xp", "Earned 15 XP", 1000000000⟩,
        ⟨"xp", "Earned 15 XP", 1000000000⟩,
        ⟨"xp", "Earned 15 XP", 1000000000⟩,
        ⟨"xp", "Earned 23 XP (3/2x bonus!)", 1000000000⟩,
        ⟨"achievement", "🏆 Unlocked: On a Roll", 1000000000⟩,
        ⟨"xp", "Earned 23 XP (3/2x bonus!)", 1000000000⟩,
        ⟨"xp", "Earned 23 XP (3/2x bonus!)", 1000000000⟩,
        ⟨"xp", "Earned 23 XP (3/2x bonus!)", 1000000000⟩,
        ⟨"xp", "Earned 23 XP (3/2x bonus!)", 1000000000⟩,
        ⟨"xp", "Earned 23 XP (3/2x bonus!)", 1000000000⟩,
        ⟨"achievement", "🏆 Unlocked: Quality Curator", 1000000000⟩,
        ⟨"achievement", "🏆 Unlocked: Unstoppable", 1000000000⟩,
        ⟨"achievement", "🏆 Unlocked: Alignment Master", 1000000000⟩],
      contentRatings := (List.range 10).map midRating,
      dailyStats := ⟨"D0", 0, 0, 10, [85, 83]⟩,
      achievements := ["first_rating", "wellness_80", "quality_streak_5",
        "quality_curator_10", "quality_streak_10", "alignment_master"],
      unlockedBadges := [], dailyChallenge := none, challengeProgress := 0,
      totalContentRated := 10, totalValuableContent := 10,
      sessionRatings := (List.range 10).map midRating,
      lastNudgeTime := 1000000000, mindlessScrollDetected := 0,
      qualityStreakCurrent := 10, qualityStreakBest := 10,
      hourlyEngagement := (List.range 24).map
        (fun h => if h = 12 then ⟨10, 10, 10, 0⟩ else ⟨0, 0, 0, 0⟩) },
    historicalData := ["h1", "h2", "h3", "h4", "h5", "h6", "h7"].map (fun k => (k, 85)),
    sessionStartTime := 1000000000,
    sessionAlignedCount := 10,
    lastCoachingMessage := some "🌟 You\x27re in the zone! Great content choices!" }

/-! ## Helper lemmas -/

theorem jsRound_intCast (z : ℤ) : jsRound (z : ℚ) = z := by
  rw [jsRound, Int.floor_int_add]
  norm_num

theorem jsRound_mono {p q : ℚ} (h : p ≤ q) : jsRound p ≤ jsRound q :=
  Int.floor_le_floor (by linarith)

theorem jsRound_bounds {a b : ℤ} {q : ℚ} (h1 : (a : ℚ) ≤ q) (h2 : q ≤ (b : ℚ)) :
    a ≤ jsRound q ∧ jsRound q ≤ b := by
  constructor
  · have := jsRound_mono h1
    rwa [jsRound_intCast] at this
  · have := jsRound_mono h2
    rwa [jsRound_intCast] at this

theorem rawWellnessScore_bounds (app : App) (now : Nat) :
    20 ≤ rawWellnessScore app now ∧ rawWellnessScore app now ≤ 100 := by
  unfold rawWellnessScore
  exact ⟨le_max_left _ _, max_le (by norm_num) (min_le_left _ _)⟩

/-! ## C1: score bounds and the smoothing formula -/

/-- C1: for every engagement state with a non-empty rating ledger, every
wellness-score computation after the first returns an integer `s` with
`20 ≤ s ≤ 100`: the raw factor sum is rounded then clamped to [20,100], and
the returned (and stored) value is `round(previousScore*0.3 + rawScore*0.7)`.
"After the first call" enters as the hypothesis `20 ≤ wellnessScore ≤ 100`:
the stored previous score is itself the output of a computation, and every
output lies in [20,100] by this theorem (the very first call starts from the
constructor default 85, also in range). -/
theorem C1_wellness_bounds_after_first (app : App) (now : Nat)
    (hne : app.userData.contentRatings ≠ [])
    (hlo : 20 ≤ app.userData.wellnessScore)
    (hhi : app.userData.wellnessScore ≤ 100) :
    20 ≤ rawWellnessScore app now ∧ rawWellnessScore app now ≤ 100 ∧
    (calculateWellnessScore app now).2 =
      jsRound ((app.userData.wellnessScore : ℚ) * 0.3 +
        ((rawWellnessScore app now : ℤ) : ℚ) * 0.7) ∧
    20 ≤ (calculateWellnessScore app now).2 ∧
    (calculateWellnessScore app now).2 ≤ 100 ∧
    (calculateWellnessScore app now).1.userData.wellnessScore =
      (calculateWellnessScore app now).2 := by
  obtain ⟨hr1, hr2⟩ := rawWellnessScore_bounds app now
  have hprev : app.userData.wellnessScore ≠ 0 := by omega
  have hs : (calculateWellnessScore app now).2 =
      jsRound ((app.userData.wellnessScore : ℚ) * 0.3 +
        ((rawWellnessScore app now : ℤ) : ℚ) * 0.7) := by
    show nextWellnessScore app now = _
    rw [nextWellnessScore, if_neg hprev]
  refine ⟨hr1, hr2, hs, ?_, ?_, rfl⟩
  · rw [hs]
    refine (jsRound_bounds (a := 20) (b := 100) ?_ ?_).1
    · push_cast
      have c1 : (20 : ℚ) ≤ (app.userData.wellnessScore : ℚ) := by exact_mod_cast hlo
      have c2 : (20 : ℚ) ≤ ((rawWellnessScore app now : ℤ) : ℚ) := by exact_mod_cast hr1
      linarith
    · push_cast
      have c1 : (app.userData.wellnessScore : ℚ) ≤ 100 := by exact_mod_cast hhi
      have c2 : ((rawWellnessScore app now : ℤ) : ℚ) ≤ 100 := by exact_mod_cast hr2
      linarith
  · rw [hs]
    refine (jsRound_bounds (a := 20) (b := 100) ?_ ?_).2
    · push_cast
      have c1 : (20 : ℚ) ≤ (app.userData.wellnessScore : ℚ) := by exact_mod_cast hlo
      have c2 : (20 : ℚ) ≤ ((rawWellnessScore app now : ℤ) : ℚ) := by exact_mod_cast hr1
      linarith
    · push_cast
      have c1 : (app.userData.wellnessScore : ℚ) ≤ 100 := by exact_mod_cast hhi
      have c2 : ((rawWellnessScore app now : ℤ) : ℚ) ≤ 100 := by exact_mod_cast hr2
      linarith

theorem C1_wellness_bounds_witness :
    20 ≤ (calculateWellnessScore oneRatingApp 1000).2 ∧
    (calculateWellnessScore oneRatingApp 1000).2 ≤ 100 :=
  ⟨(C1_wellness_bounds_after_first oneRatingApp 1000 (by decide) (by decide)
      (by decide)).2.2.2.1,
   (C1_wellness_bounds_after_first oneRatingApp 1000 (by decide) (by decide)
      (by decide)).2.2.2.2.1⟩

/-! ## C9: empty state is safe -/

/-- C9: on the empty engagement state (0 ratings, 0 daily screen time, 0
mood samples — the freshly constructed engine, whatever its session start,
date key and seven baseline history keys), the wellness computation divides
by no zero denominator and returns the defined baseline integer 56 (raw
factor sum 44 = 0 alignment + 15 zero-usage time + 10 mood default +
7 engagement default + 5 historical-consistency + 5 diversity default +
2 recency default, blended with the default previous score 85); every ratio
denominator it evaluates equals the documented `max(.., 1)`-floored value
and is ≥ 1 (the guarded mood and rating-ratio denominators are not
evaluated on the empty path, where the baseline constants are used). -/
theorem C9_empty_state_defined (sessionStart now : Nat)
    (today k1 k2 k3 k4 k5 k6 k7 : String) :
    rawWellnessScore (freshApp sessionStart today [k1, k2, k3, k4, k5, k6, k7]) now
      = 44 ∧
    (calculateWellnessScore (freshApp sessionStart today [k1, k2, k3, k4, k5, k6, k7]) now).2
      = 56 ∧
    wellnessRatioDenominators (freshApp sessionStart today [k1, k2, k3, k4, k5, k6, k7]) now
      = [1, 3600, 5, 5] ∧
    ∀ d ∈ wellnessRatioDenominators
      (freshApp sessionStart today [k1, k2, k3, k4, k5, k6, k7]) now, 1 ≤ d := by
  have hud : (freshApp sessionStart today [k1, k2, k3, k4, k5, k6, k7]).userData
      = freshUserData sessionStart today := rfl
  have h1 : goalAlignmentScore (freshUserData sessionStart today) = 0 := by
    simp only [goalAlignmentScore, freshUserData, sliceLast]
    norm_num
  have h2 : timeManagementScore (freshUserData sessionStart today) = 15 := by
    simp only [timeManagementScore, freshUserData]
    norm_num
  have h3 : moodTrajectoryScore (freshUserData sessionStart today) = 10 := by
    simp only [moodTrajectoryScore, freshUserData, sliceLast]
    norm_num
  have h4 : engagementQualityScore (freshUserData sessionStart today) = 7 := by
    simp only [engagementQualityScore, freshUserData, sliceLast]
    norm_num
  have h5 : consistencyScore (freshApp sessionStart today [k1, k2, k3, k4, k5, k6, k7]) = 5 := by
    simp only [consistencyScore, freshApp, freshUserData, sliceLast]
    norm_num
  have h6 : contentDiversityScore (freshUserData sessionStart today) = 5 := by
    simp only [contentDiversityScore, freshUserData, sliceLast]
    norm_num
  have h7 : recencyScore (freshUserData sessionStart today) now = 2 := by
    simp only [recencyScore, freshUserData]
    norm_num
  have hsum : wellnessFactorSum (freshApp sessionStart today [k1, k2, k3, k4, k5, k6, k7]) now = 44 := by
    rw [wellnessFactorSum, hud, h1, h2, h3, h4, h5, h6, h7]
    norm_num
  have hraw : rawWellnessScore (freshApp sessionStart today [k1, k2, k3, k4, k5, k6, k7]) now = 44 := by
    rw [rawWellnessScore, hsum]
    have h44 : jsRound (44 : ℚ) = 44 := by
      have h := jsRound_intCast 44
      norm_num at h
      exact h
    rw [h44]
    norm_num
  have hfinal : (calculateWellnessScore (freshApp sessionStart today [k1, k2, k3, k4, k5, k6, k7]) now).2 = 56 := by
    show nextWellnessScore _ _ = 56
    rw [nextWellnessScore, hraw, hud]
    have h85 : (freshUserData sessionStart today).wellnessScore = 85 := rfl
    rw [h85]
    norm_num
    show jsRound ((85 : ℚ) * 0.3 + (44 : ℚ) * 0.7) = 56
    rw [jsRound]
    rw [Int.floor_eq_iff]
    constructor <;> norm_num
  have hden : wellnessRatioDenominators (freshApp sessionStart today [k1, k2, k3, k4, k5, k6, k7]) now
      = [1, 3600, 5, 5] := by
    simp only [wellnessRatioDenominators, freshApp, freshUserData, sliceLast]
    norm_num
  refine ⟨hraw, hfinal, hden, ?_⟩
  intro d hd
  rw [hden] at hd
  fin_cases hd <;> norm_num

/-! ## C3: sliding-window rate limiter -/

theorem youngCount_anti (reqs : List Nat) (t T w : Nat)
    (hle : ∀ x ∈ reqs, x ≤ t) (h : t ≤ T) :
    youngCount reqs T w ≤ youngCount reqs t w := by
  induction reqs with
  | nil => simp [youngCount]
  | cons x xs ih =>
    have hx : x ≤ t := hle x (List.mem_cons_self _ _)
    have ihx := ih (fun y hy => hle y (List.mem_cons_of_mem _ hy))
    simp only [youngCount, List.filter_cons] at ihx ⊢
    by_cases hT1 : T - x < w
    · have ht1 : t - x < w := by omega
      rw [decide_eq_true hT1, decide_eq_true ht1]
      simp
      omega
    · by_cases ht1 : t - x < w
      · rw [decide_eq_false hT1, decide_eq_true ht1]
        simp
        omega
      · rw [decide_eq_false hT1, decide_eq_false ht1]
        simp
        omega

theorem throttle_preserves (rl : RateLimiter) (clock now : Nat)
    (hW : 0 < rl.timeWindow) (hM : 0 < rl.maxRequests)
    (hinv : limiterInv rl clock) (hcn : clock ≤ now) :
    limiterInv (rl.throttle now).1 (rl.throttle now).2 ∧ now ≤ (rl.throttle now).2 ∧
    (rl.throttle now).1.maxRequests = rl.maxRequests ∧
    (rl.throttle now).1.timeWindow = rl.timeWindow := by
  obtain ⟨hsort, hbound, hcount⟩ := hinv
  set W := rl.timeWindow with hWdef
  set reqs := rl.requests.filter (fun time => now - time < W) with hreqs
  have hsub : reqs.Sublist rl.requests := List.filter_sublist _
  have hsort' : reqs.Pairwise (· ≤ ·) := hsort.sublist hsub
  have hmemf : ∀ x ∈ reqs, x ∈ rl.requests ∧ now - x < W := by
    intro x hxm
    rw [hreqs, List.mem_filter] at hxm
    exact ⟨hxm.1, by simpa using hxm.2⟩
  have hbound' : ∀ x ∈ reqs, x ≤ clock := fun x hx => hbound x (hmemf x hx).1
  have hlen : reqs.length ≤ rl.maxRequests := by
    have h1 : reqs.length = youngCount rl.requests now W := rfl
    have h2 := youngCount_anti rl.requests clock now W hbound hcn
    omega
  show limiterInv (rl.throttle now).1 (rl.throttle now).2 ∧ _
  rw [RateLimiter.throttle]
  by_cases hfull : reqs.length ≥ rl.maxRequests
  · simp only [hreqs.symm, hWdef.symm] at *
    rw [if_pos hfull]
    have hlen_eq : reqs.length = rl.maxRequests := le_antisymm hlen hfull
    have hne : reqs ≠ [] := by
      intro hnil
      rw [hnil] at hlen_eq
      simp at hlen_eq
      omega
    obtain ⟨o, rest, ho⟩ : ∃ o rest, reqs = o :: rest := by
      cases hc : reqs with
      | nil => exact absurd hc hne
      | cons a l => exact ⟨a, l, rfl⟩
    have hoD : reqs.headD 0 = o := by rw [ho]; rfl
    have homem : o ∈ reqs := by rw [ho]; exact List.mem_cons_self _ _
    have hoy : now - o < W := (hmemf o homem).2
    have hoc : o ≤ clock := hbound' o homem
    rw [hoD]
    set done := now + (W - (now - o)) with hdone
    have hdone_eq : done = o + W := by omega
    have hnd : now ≤ done := by omega
    refine ⟨⟨?_, ?_, ?_⟩, hnd, rfl, rfl⟩
    · rw [List.pairwise_append]
      refine ⟨hsort', List.pairwise_singleton _ _, ?_⟩
      intro x hx y hy
      rw [List.mem_singleton] at hy
      subst hy
      have := hbound' x hx
      omega
    · intro x hx
      rw [List.mem_append] at hx
      rcases hx with hx | hx
      · have := hbound' x hx
        omega
      · rw [List.mem_singleton] at hx
        omega
    · show youngCount (reqs ++ [done]) done W ≤ rl.maxRequests
      unfold youngCount
      rw [List.filter_append]
      rw [List.length_append]
      have hdone_self : (List.filter (fun x => decide (done - x < W)) [done]).length ≤ 1 :=
        List.length_filter_le _ _
      have hfo : (List.filter (fun x => decide (done - x < W)) reqs).length ≤ rest.length := by
        rw [ho, List.filter_cons]
        have hno : ¬ (done - o < W) := by omega
        rw [decide_eq_false hno]
        simp
        exact List.length_filter_le _ _
      have hrl : rest.length + 1 = rl.maxRequests := by
        have := congrArg List.length ho
        simp at this
        omega
      omega
  · rw [if_neg hfull]
    push_neg at hfull
    refine ⟨⟨?_, ?_, ?_⟩, le_refl now, rfl, rfl⟩
    · rw [List.pairwise_append]
      refine ⟨hsort', List.pairwise_singleton _ _, ?_⟩
      intro x hx y hy
      rw [List.mem_singleton] at hy
      subst hy
      have := hbound' x hx
      omega
    · intro x hx
      rw [List.mem_append] at hx
      rcases hx with hx | hx
      · have := hbound' x hx
        omega
      · rw [List.mem_singleton] at hx
        omega
    · show youngCount (reqs ++ [now]) now W ≤ rl.maxRequests
      unfold youngCount
      have h1 : (List.filter (fun x => decide (now - x < W)) (reqs ++ [now])).length
          ≤ (reqs ++ [now]).length := List.length_filter_le _ _
      rw [List.length_append] at h1
      simp only [List.length_singleton] at h1
      omega

theorem runCalls_preserves (ts : List Nat) (rl : RateLimiter) (clock : Nat)
    (hW : 0 < rl.timeWindow) (hM : 0 < rl.maxRequests) (hinv : limiterInv rl clock) :
    limiterInv (runCalls rl clock ts).1 (runCalls rl clock ts).2 ∧
    (runCalls rl clock ts).1.maxRequests = rl.maxRequests ∧
    (runCalls rl clock ts).1.timeWindow = rl.timeWindow := by
  induction ts generalizing rl clock with
  | nil => exact ⟨hinv, rfl, rfl⟩
  | cons t ts ih =>
    simp only [runCalls]
    have hstep := throttle_preserves rl clock (max t clock) hW hM hinv (le_max_right _ _)
    have hW' : 0 < (rl.throttle (max t clock)).1.timeWindow := by
      rw [hstep.2.2.2]; exact hW
    have hM' : 0 < (rl.throttle (max t clock)).1.maxRequests := by
      rw [hstep.2.2.1]; exact hM
    have hrec := ih (rl.throttle (max t clock)).1 (rl.throttle (max t clock)).2 hW' hM' hstep.1
    exact ⟨hrec.1, by rw [hrec.2.1, hstep.2.2.1], by rw [hrec.2.2, hstep.2.2.2]⟩

/-- C3: for the limiter `new RateLimiter(30, 60000)`, after any sequence of
sequential `throttle` calls issued at arbitrary times, at most 30 recorded
timestamps younger than 60 s coexist in the window — at the completion time
of the last call and at every later instant `T` up to the next call (a
prefix of the sequence instantiates this for every intermediate state).
Concretely, for 31 calls issued at times 0..30 ms (all within one second)
the 31st call completes only at 60000 = first-timestamp + window, i.e. it
is suspended until the oldest recorded timestamp ages out, while the first
30 calls complete at their issue times (the 30th at t = 29). -/
theorem C3_rate_limiter_window (ts : List Nat) (T : Nat)
    (hT : (runCalls redditLimiter 0 ts).2 ≤ T) :
    youngCount (runCalls redditLimiter 0 ts).1.requests T 60000 ≤ 30 ∧
    (runCalls redditLimiter 0 (List.range 31)).2 = 0 + 60000 ∧
    (runCalls redditLimiter 0 (List.range 30)).2 = 29 := by
  have hinv0 : limiterInv redditLimiter 0 := by
    refine ⟨List.Pairwise.nil, ?_, ?_⟩
    · intro x hx
      simp [redditLimiter] at hx
    · simp [youngCount, redditLimiter]
  have hrun := runCalls_preserves ts redditLimiter 0 (by norm_num [redditLimiter])
    (by norm_num [redditLimiter]) hinv0
  obtain ⟨⟨hsort, hbound, hcount⟩, hmax, hwin⟩ := hrun
  refine ⟨?_, by decide, by decide⟩
  have hanti := youngCount_anti (runCalls redditLimiter 0 ts).1.requests
    (runCalls redditLimiter 0 ts).2 T 60000 hbound hT
  rw [hwin] at hcount
  rw [hmax] at hcount
  calc youngCount (runCalls redditLimiter 0 ts).1.requests T 60000
      ≤ youngCount (runCalls redditLimiter 0 ts).1.requests (runCalls redditLimiter 0 ts).2 60000 := hanti
    _ ≤ 30 := hcount

theorem C3_rate_limiter_window_witness :
    youngCount (runCalls redditLimiter 0 [5]).1.requests 70000 60000 ≤ 30 ∧
    (runCalls redditLimiter 0 (List.range 31)).2 = 0 + 60000 ∧
    (runCalls redditLimiter 0 (List.range 30)).2 = 29 :=
  C3_rate_limiter_window [5] 70000 (by decide)

/-! ## C4 and C5: cache -/

theorem tail_append_of_ne_nil (l l2 : List α) (h : l ≠ []) :
    (l ++ l2).tail = l.tail ++ l2 := by
  cases l with
  | nil => exact absurd rfl h
  | cons a as => rfl

/-- C4: the content cache holds at most 10 entries after each store
operation, and storing an 11th distinct entry into a full cache evicts
exactly the earliest-inserted entry (the head of the insertion-ordered map,
FIFO — updates to existing keys keep their position and evict nothing). -/
theorem C4_cache_capacity_fifo (c : RedditCache P) (key : String) (v : P) (now : Nat)
    (h10 : c.entries.length ≤ 10) :
    ((c.store key v now).entries.length ≤ 10) ∧
    (c.entries.length = 10 → (∀ e ∈ c.entries, e.1 ≠ key) →
      (c.store key v now).entries = c.entries.tail ++ [(key, v, now + 5 * 60 * 1000)]) := by
  constructor
  · rw [RedditCache.store, RedditCache.set]
    by_cases hany : c.entries.any (fun e => e.1 = key)
    · rw [if_pos hany]
      have hlen : (c.entries.map (fun e => if e.1 = key then (key, v, now + 5 * 60 * 1000) else e)).length = c.entries.length :=
        List.length_map _ _
      by_cases hgt : (c.entries.map (fun e => if e.1 = key then (key, v, now + 5 * 60 * 1000) else e)).length > 10
      · omega
      · simp only [hgt, if_false]
        simp only [hlen]
        omega
    · rw [if_neg hany]
      have hlen : (c.entries ++ [(key, v, now + 5 * 60 * 1000)]).length = c.entries.length + 1 := by
        simp
      by_cases hgt : (c.entries ++ [(key, v, now + 5 * 60 * 1000)]).length > 10
      · rw [if_pos hgt]
        dsimp only
        have := List.length_tail (c.entries ++ [(key, v, now + 5 * 60 * 1000)])
        omega
      · rw [if_neg hgt]
        dsimp only
        omega
  · intro hlen hfresh
    have hany : c.entries.any (fun e => e.1 = key) = false := by
      rw [List.any_eq_false]
      intro e he
      simpa using hfresh e he
    rw [RedditCache.store, RedditCache.set]
    rw [hany]
    simp only [Bool.false_eq_true, if_false]
    have hne : c.entries ≠ [] := by
      intro h
      rw [h] at hlen
      simp at hlen
    have hlen2 : (c.entries ++ [(key, v, now + 5 * 60 * 1000)]).length = 11 := by
      simp [hlen]
    rw [if_pos (by omega)]
    exact tail_append_of_ne_nil _ _ hne

/-- C5: if the cache holds an entry for `key` whose expiry (set at
insertion to `now + 5` minutes) is still in the future, `fetchRealContent`
returns the cached value and does not invoke the producer; conversely the
producer is invoked only when no non-expired entry exists for the key. -/
theorem C5_cache_hit_skips_producer (c : RedditCache (List P)) (key : String) (now : Nat)
    (producer : Option (List P)) (v : List P) (expiresAt : Nat) :
    (c.lookup key = some (v, expiresAt) → now < expiresAt →
      fetchRealContent c key now producer = ⟨c, false, some v⟩) ∧
    ((fetchRealContent c key now producer).producerInvoked = true →
      ∀ w exp, c.lookup key = some (w, exp) → ¬ now < exp) := by
  constructor
  · intro h1 h2
    rw [fetchRealContent, h1]
    simp [h2]
  · intro hinv w exp heq
    by_cases hlt : now < exp
    · exfalso
      rw [fetchRealContent] at hinv
      rw [heq] at hinv
      simp [hlt] at hinv
    · exact hlt

theorem C4_cache_capacity_fifo_witness :
    ((tenEntryCache.store "k" 7 0).entries.length ≤ 10) ∧
    (tenEntryCache.store "k" 7 0).entries =
      tenEntryCache.entries.tail ++ [("k", 7, 0 + 5 * 60 * 1000)] :=
  ⟨(C4_cache_capacity_fifo tenEntryCache "k" 7 0 (by decide)).1,
   (C4_cache_capacity_fifo tenEntryCache "k" 7 0 (by decide)).2 (by decide) (by decide)⟩

theorem C5_cache_hit_skips_producer_witness :
    fetchRealContent oneEntryCache "k" 10 (some [2]) =
      ⟨oneEntryCache, false, some [1]⟩ :=
  (C5_cache_hit_skips_producer oneEntryCache "k" 10 (some [2]) [1] 5000).1
    (by decide) (by decide)

/-! ## C2: checkAchievements is idempotent on unchanged state -/

theorem achievementsOnlyDiff_refl (u : UserData) : achievementsOnlyDiff u u := rfl

theorem achievementsOnlyDiff_trans {u v w : UserData}
    (h1 : achievementsOnlyDiff u v) (h2 : achievementsOnlyDiff v w) :
    achievementsOnlyDiff u w := by
  unfold achievementsOnlyDiff at *
  rw [h2, h1]

theorem achStep_diff (now : Nat) (acc : UserData) (d : AchievementDef) :
    achievementsOnlyDiff acc (achStep now acc d) := by
  unfold achievementsOnlyDiff achStep addActivity
  by_cases h1 : acc.achievements.contains d.id
  · rw [if_pos h1]
  · rw [if_neg h1]
    by_cases h2 : d.condition acc
    · simp only [h2, if_true]
    · simp only [h2, Bool.false_eq_true, if_false]

theorem runDefs_diff (ds : List AchievementDef) (u : UserData) (now : Nat) :
    achievementsOnlyDiff u (ds.foldl (achStep now) u) := by
  induction ds generalizing u with
  | nil => exact achievementsOnlyDiff_refl u
  | cons d rest ih =>
    rw [List.foldl_cons]
    exact achievementsOnlyDiff_trans (achStep_diff now u d) (ih (achStep now u d))

/-- The achievements list only grows, by ids that never contain the
`daily_complete` substring, as long as the defs come from the catalog. -/
theorem runDefs_extends (ds : List AchievementDef) (u : UserData) (now : Nat)
    (hsub : ∀ d ∈ ds, d ∈ achievementDefinitions) :
    ∃ l, (ds.foldl (achStep now) u).achievements = u.achievements ++ l ∧
      ∀ a ∈ l, jsIncludes a "daily_complete" = false := by
  induction ds generalizing u with
  | nil => exact ⟨[], by simp, by simp⟩
  | cons d rest ih =>
    rw [List.foldl_cons]
    obtain ⟨l2, hl2, hl2f⟩ := ih (achStep now u d) (fun e he => hsub e (List.mem_cons_of_mem _ he))
    have hdf : jsIncludes d.id "daily_complete" = false := by
      have hd : d ∈ achievementDefinitions := hsub d (List.mem_cons_self _ _)
      revert hd
      simp only [achievementDefinitions, List.mem_cons, List.not_mem_nil, or_false]
      rintro (rfl|rfl|rfl|rfl|rfl|rfl|rfl|rfl|rfl|rfl|rfl|rfl|rfl) <;> decide
    unfold achStep at hl2 ⊢
    by_cases h1 : u.achievements.contains d.id
    · rw [if_pos h1] at hl2 ⊢
      exact ⟨l2, hl2, hl2f⟩
    · rw [if_neg h1] at hl2 ⊢
      by_cases h2 : d.condition u
      · simp only [h2, if_true] at hl2 ⊢
        unfold addActivity at hl2 ⊢
        refine ⟨d.id :: l2, ?_, ?_⟩
        · simpa [List.append_assoc] using hl2
        · intro a ha
          rcases List.mem_cons.1 ha with rfl | ha
          · exact hdf
          · exact hl2f a ha
      · simp only [h2, Bool.false_eq_true, if_false] at hl2 ⊢
        exact ⟨l2, hl2, hl2f⟩

theorem dailyCount_eq_of_extends {u v : UserData}
    (h : ∃ l, v.achievements = u.achievements ++ l ∧
      ∀ a ∈ l, jsIncludes a "daily_complete" = false) :
    dailyCount v = dailyCount u := by
  obtain ⟨l, hl, hlf⟩ := h
  unfold dailyCount
  rw [hl, List.filter_append]
  have : l.filter (fun a => jsIncludes a "daily_complete") = [] := by
    rw [List.filter_eq_nil_iff]
    intro a ha
    simp [hlf a ha]
  rw [this, List.append_nil]

theorem achCondition_congr (u v : UserData)
    (h1 : u.totalContentRated = v.totalContentRated)
    (h2 : u.totalValuableContent = v.totalValuableContent)
    (h3 : u.streak = v.streak)
    (h4 : u.qualityStreakBest = v.qualityStreakBest)
    (h5 : u.level = v.level)
    (h6 : u.wellnessScore = v.wellnessScore)
    (h7 : u.contentRatings = v.contentRatings)
    (h8 : dailyCount u = dailyCount v) :
    ∀ d ∈ achievementDefinitions, d.condition u = d.condition v := by
  unfold dailyCount at h8
  intro d hd
  revert hd
  simp only [achievementDefinitions, List.mem_cons, List.not_mem_nil, or_false]
  rintro (rfl|rfl|rfl|rfl|rfl|rfl|rfl|rfl|rfl|rfl|rfl|rfl|rfl) <;>
    simp only [h1, h2, h3, h4, h5, h6, h7, h8]

theorem addActivity_achievements (u : UserData) (a t : String) (n : Nat) :
    (addActivity u a t n).achievements = u.achievements := rfl

theorem addActivity_xp (u : UserData) (a t : String) (n : Nat) :
    (addActivity u a t n).xp = u.xp := rfl

/-- Conditions of catalog achievements are unchanged by any run of the
unlock loop over catalog definitions. -/
theorem condition_stable (ds : List AchievementDef) (u : UserData) (now : Nat)
    (hsub : ∀ d ∈ ds, d ∈ achievementDefinitions) :
    ∀ d ∈ achievementDefinitions,
      d.condition (ds.foldl (achStep now) u) = d.condition u := by
  have hdiff := runDefs_diff ds u now
  have hext := runDefs_extends ds u now hsub
  have hdc : dailyCount (ds.foldl (achStep now) u) = dailyCount u :=
    dailyCount_eq_of_extends hext
  intro d hd
  refine (achCondition_congr u _ ?_ ?_ ?_ ?_ ?_ ?_ ?_ hdc.symm d hd).symm
  all_goals rw [hdiff]

theorem mem_of_runDefs_extends (ds : List AchievementDef) (u : UserData) (now : Nat)
    (hsub : ∀ d ∈ ds, d ∈ achievementDefinitions)
    (a : String) (ha : a ∈ u.achievements) :
    a ∈ (ds.foldl (achStep now) u).achievements := by
  obtain ⟨l, hl, -⟩ := runDefs_extends ds u now hsub
  rw [hl]
  exact List.mem_append_left _ ha

/-- After the loop, every catalog definition is either unlocked or its
condition evaluates to false on the final state. -/
theorem runDefs_establishes (ds : List AchievementDef) (u : UserData) (now : Nat)
    (hsub : ∀ d ∈ ds, d ∈ achievementDefinitions) :
    ∀ d ∈ ds, d.id ∈ (ds.foldl (achStep now) u).achievements ∨
      d.condition (ds.foldl (achStep now) u) = false := by
  induction ds generalizing u with
  | nil => intro d hd; exact absurd hd (List.not_mem_nil d)
  | cons d0 rest ih =>
    have hsubr : ∀ d ∈ rest, d ∈ achievementDefinitions :=
      fun e he => hsub e (List.mem_cons_of_mem _ he)
    intro d hd
    rw [List.foldl_cons]
    rcases List.mem_cons.1 hd with rfl | hdr
    · by_cases h1 : u.achievements.contains d.id
      · left
        have hmem : d.id ∈ u.achievements := List.elem_iff.1 h1
        have hmem2 : d.id ∈ (achStep now u d).achievements := by
          unfold achStep
          rw [if_pos h1]
          exact hmem
        exact mem_of_runDefs_extends rest (achStep now u d) now hsubr _ hmem2
      · by_cases h2 : d.condition u
        · left
          have hmem2 : d.id ∈ (achStep now u d).achievements := by
            unfold achStep
            rw [if_neg h1]
            simp only [h2, if_true]
            rw [addActivity_achievements]
            simp
          exact mem_of_runDefs_extends rest (achStep now u d) now hsubr _ hmem2
        · right
          have hstep : achStep now u d = u := by
            unfold achStep
            rw [if_neg h1, if_neg (by simpa using h2)]
          rw [hstep]
          rw [condition_stable rest u now hsubr d (hsub d (List.mem_cons_self _ _))]
          simpa using h2
    · exact ih (achStep now u d0) hsubr d hdr

/-- If every definition is already settled (unlocked or condition-false),
the loop is the identity. -/
theorem runDefs_noop (ds : List AchievementDef) (u : UserData) (now : Nat)
    (h : ∀ d ∈ ds, d.id ∈ u.achievements ∨ d.condition u = false) :
    ds.foldl (achStep now) u = u := by
  induction ds with
  | nil => rfl
  | cons d rest ih =>
    rw [List.foldl_cons]
    have hstep : achStep now u d = u := by
      rcases h d (List.mem_cons_self _ _) with hm | hc
      · unfold achStep
        rw [if_pos (List.elem_iff.2 hm)]
      · by_cases h1 : u.achievements.contains d.id
        · unfold achStep
          rw [if_pos h1]
        · unfold achStep
          rw [if_neg h1, if_neg (by simp [hc])]
    rw [hstep]
    exact ih (fun e he => h e (List.mem_cons_of_mem _ he))

theorem runDefs_nodup (ds : List AchievementDef) (u : UserData) (now : Nat)
    (h : u.achievements.Nodup) :
    (ds.foldl (achStep now) u).achievements.Nodup := by
  induction ds generalizing u with
  | nil => exact h
  | cons d rest ih =>
    rw [List.foldl_cons]
    apply ih
    unfold achStep
    by_cases h1 : u.achievements.contains d.id
    · rw [if_pos h1]
      exact h
    · rw [if_neg h1]
      by_cases h2 : d.condition u
      · simp only [h2, if_true]
        have hnm : d.id ∉ u.achievements := fun hm => h1 (List.elem_iff.2 hm)
        rw [addActivity_achievements]
        simp [List.nodup_append, h, hnm]
      · simp only [h2, Bool.false_eq_true, if_false]
        exact h

/-- C2: `checkAchievements` is idempotent on unchanged state — a second
consecutive call (at any later instant) unlocks nothing, changes nothing
(in particular awards no XP), and a single call never duplicates an id in
the unlocked set. -/
theorem C2_checkAchievements_idempotent (u : UserData) (now now2 : Nat) :
    checkAchievements (checkAchievements u now) now2 = checkAchievements u now ∧
    (u.achievements.Nodup → (checkAchievements u now).achievements.Nodup) := by
  constructor
  · apply runDefs_noop
    intro d hd
    exact runDefs_establishes achievementDefinitions u now (fun _ h => h) d hd
  · intro h
    exact runDefs_nodup achievementDefinitions u now h

theorem C2_checkAchievements_idempotent_witness :
    checkAchievements (checkAchievements (freshUserData 0 "D0") 5) 9
      = checkAchievements (freshUserData 0 "D0") 5 ∧
    (checkAchievements (freshUserData 0 "D0") 5).achievements.Nodup :=
  ⟨(C2_checkAchievements_idempotent (freshUserData 0 "D0") 5 9).1,
   (C2_checkAchievements_idempotent (freshUserData 0 "D0") 5 9).2 (by decide)⟩

/-! ## C6: daily-challenge bonus granted at most once per day -/

theorem checkAchievements_diff (u : UserData) (now : Nat) :
    achievementsOnlyDiff u (checkAchievements u now) :=
  runDefs_diff achievementDefinitions u now

theorem checkAchievements_extends (u : UserData) (now : Nat) :
    ∃ l, (checkAchievements u now).achievements = u.achievements ++ l :=
  (runDefs_extends achievementDefinitions u now (fun _ h => h)).imp
    (fun _ h => h.1)

/-- Shape of one same-day `updateDailyChallengeProgress` call: the stored
challenge carries the recomputed progress; ratings are untouched;
achievements only grow; completion implies the day marker is recorded
afterwards; and with no completion — or with the marker already recorded —
XP and achievements are exactly unchanged. -/
theorem updateDailyChallenge_shape (u : UserData) (today : String)
    (dayOf : Nat → String) (pick now : Nat) (c : DailyChallenge)
    (hc : u.dailyChallenge = some c) (hd : c.date = today) :
    (updateDailyChallengeProgress u today dayOf pick now).dailyChallenge
      = some { c with progress := (challengeProgressValue c
          (u.contentRatings.filter (fun r => dayOf r.timestamp = today))) } ∧
    (updateDailyChallengeProgress u today dayOf pick now).contentRatings
      = u.contentRatings ∧
    (∃ l, (updateDailyChallengeProgress u today dayOf pick now).achievements
      = u.achievements ++ l) ∧
    (challengeProgressValue c (u.contentRatings.filter (fun r => dayOf r.timestamp = today))
        ≥ c.target →
      dailyCompleteMarker today ∈ (updateDailyChallengeProgress u today dayOf pick now).achievements) ∧
    (¬ challengeProgressValue c (u.contentRatings.filter (fun r => dayOf r.timestamp = today))
        ≥ c.target →
      (updateDailyChallengeProgress u today dayOf pick now).xp = u.xp ∧
      (updateDailyChallengeProgress u today dayOf pick now).achievements = u.achievements) ∧
    (u.achievements.contains (dailyCompleteMarker today) = true →
      (updateDailyChallengeProgress u today dayOf pick now).xp = u.xp ∧
      (updateDailyChallengeProgress u today dayOf pick now).achievements = u.achievements) := by
  have hdd : ¬ (c.date ≠ today) := by simp [hd]
  rw [updateDailyChallengeProgress, hc]
  dsimp only
  rw [if_neg hdd]
  set p := challengeProgressValue c
    (u.contentRatings.filter (fun r => dayOf r.timestamp = today)) with hp
  set u1 : UserData := { u with dailyChallenge := some { c with progress := p } } with hu1
  by_cases hgrant : p ≥ c.target ∧
      ¬ (u1.achievements.contains (dailyCompleteMarker c.date) = true)
  · rw [if_pos hgrant]
    set u2 : UserData := { u1 with
      achievements := u1.achievements ++ [dailyCompleteMarker c.date],
      xp := u1.xp + c.xpReward } with hu2
    have hdiff := checkAchievements_diff u2 now
    obtain ⟨l, hl⟩ := checkAchievements_extends u2 now
    refine ⟨?_, ?_, ?_, ?_, ?_, ?_⟩
    · rw [hdiff]
    · rw [hdiff]
    · refine ⟨[dailyCompleteMarker c.date] ++ l, ?_⟩
      rw [hl]
      simp [hu2, hu1, hd]
    · intro _
      rw [hl]
      simp [hu2, hu1, hd]
    · intro hnot
      exact absurd hgrant.1 hnot
    · intro hmark
      exfalso
      apply hgrant.2
      rw [hd]
      exact hmark
  · rw [if_neg hgrant]
    refine ⟨rfl, rfl, ⟨[], by simp⟩, ?_, fun _ => ⟨rfl, rfl⟩, fun _ => ⟨rfl, rfl⟩⟩
    intro hge
    have hmark : u1.achievements.contains (dailyCompleteMarker c.date) = true := by
      by_contra hnm
      exact hgrant ⟨hge, hnm⟩
    have : dailyCompleteMarker c.date ∈ u.achievements := List.elem_iff.1 hmark
    rw [hd] at this
    exact this

/-- C6: within one day, the daily-challenge completion bonus is added to
total XP at most once per `(challengeId, dateKey)` pair no matter how often
progress is recomputed: a second same-day recomputation never changes XP;
with the day's unique completion marker (`daily_complete_<dateKey>`,
recorded in achievements state) already present a recomputation changes
neither XP nor achievements; and any completed recomputation leaves the
marker recorded. Since at most one challenge exists per `dateKey`, at most
once per dateKey implies at most once per `(challengeId, dateKey)`. -/
theorem C6_challenge_bonus_once (u : UserData) (today : String) (dayOf : Nat → String)
    (pick pick2 now now2 : Nat) (c : DailyChallenge)
    (hc : u.dailyChallenge = some c) (hd : c.date = today) :
    (updateDailyChallengeProgress (updateDailyChallengeProgress u today dayOf pick now)
        today dayOf pick2 now2).xp
      = (updateDailyChallengeProgress u today dayOf pick now).xp ∧
    (u.achievements.contains (dailyCompleteMarker today) = true →
      (updateDailyChallengeProgress u today dayOf pick now).xp = u.xp ∧
      (updateDailyChallengeProgress u today dayOf pick now).achievements = u.achievements) ∧
    (challengeProgressValue c (u.contentRatings.filter (fun r => dayOf r.timestamp = today))
        ≥ c.target →
      dailyCompleteMarker today
        ∈ (updateDailyChallengeProgress u today dayOf pick now).achievements) := by
  obtain ⟨hch, hcr, hext, hmark, hnog, hpres⟩ :=
    updateDailyChallenge_shape u today dayOf pick now c hc hd
  refine ⟨?_, hpres, hmark⟩
  set r := updateDailyChallengeProgress u today dayOf pick now with hr
  set c1 : DailyChallenge := { c with progress := (challengeProgressValue c
    (u.contentRatings.filter (fun x => dayOf x.timestamp = today))) } with hc1
  have hc1d : c1.date = today := hd
  obtain ⟨hch2, hcr2, hext2, hmark2, hnog2, hpres2⟩ :=
    updateDailyChallenge_shape r today dayOf pick2 now2 c1 hch hc1d
  have hcty : c1.ctype = c.ctype := rfl
  have htg : c1.target = c.target := rfl
  have hpeq : challengeProgressValue c1 (r.contentRatings.filter (fun x => dayOf x.timestamp = today))
      = challengeProgressValue c (u.contentRatings.filter (fun x => dayOf x.timestamp = today)) := by
    rw [hcr]
    unfold challengeProgressValue
    rw [hcty]
  by_cases hp : challengeProgressValue c
      (u.contentRatings.filter (fun x => dayOf x.timestamp = today)) ≥ c.target
  · have hm : dailyCompleteMarker today ∈ r.achievements := hmark hp
    exact (hpres2 (List.elem_iff.2 hm)).1
  · have hnp : ¬ challengeProgressValue c1
        (r.contentRatings.filter (fun x => dayOf x.timestamp = today)) ≥ c1.target := by
      rw [hpeq, htg]
      exact hp
    exact (hnog2 hnp).1

theorem C6_challenge_bonus_once_witness :
    (updateDailyChallengeProgress
        (updateDailyChallengeProgress completedChallengeUser "D0" (fun _ => "D0") 0 3)
        "D0" (fun _ => "D0") 1 4).xp
      = (updateDailyChallengeProgress completedChallengeUser "D0" (fun _ => "D0") 0 3).xp ∧
    ((updateDailyChallengeProgress completedChallengeUser "D0" (fun _ => "D0") 0 3).xp
        = completedChallengeUser.xp ∧
      (updateDailyChallengeProgress completedChallengeUser "D0" (fun _ => "D0") 0 3).achievements
        = completedChallengeUser.achievements) ∧
    "daily_complete_D0"
      ∈ (updateDailyChallengeProgress completedChallengeUser "D0" (fun _ => "D0") 0 3).achievements :=
  have th := C6_challenge_bonus_once completedChallengeUser "D0" (fun _ => "D0") 0 1 3 4
    ⟨"rate_10", "Rate 10 items", 10, 0, "ratings", 100, "D0"⟩ rfl rfl
  ⟨th.1, th.2.1 (by decide), th.2.2 (by decide)⟩

/-! ## C8: mindless-scroll detector -/

/-- C8 counterexample: on a session of exactly 10 ratings with skip-ratio
0.8 inside the last 60 seconds, `detectMindlessScrolling` neither
increments the mindless-scroll counter nor emits any nudge — the guard
`if (recent.length < 15) return` (line 1910) exits before any check, so
the claim as stated is false. -/
theorem C8_counterexample_ten_ratings :
    (tenRatingSession.userData.sessionRatings.filter
      (fun r => 100000 - r.timestamp < 60000)).length = 10 ∧
    ((tenRatingSession.userData.sessionRatings.filter
        (fun r => 100000 - r.timestamp < 60000)).filter
      (fun r => r.rating = "skip")).length = 8 ∧
    ((8 : ℚ) / 10 > 0.7) ∧
    detectMindlessScrolling tenRatingSession 100000 = (tenRatingSession, false) := by
  decide

/-- C8 amended: the detector acts only once the session holds at least 15
rating events and it inspects only the last 15 of them; whenever at least
10 of those fall in the last 60 seconds with skip-ratio among them above
0.7, it increments the mindless-scroll counter and emits the course-
correction nudge — unconditionally, with no cooldown gating (it only
*writes* `lastNudgeTime`). -/
theorem C8_mindless_scroll_amended (app : App) (now : Nat)
    (h15 : 15 ≤ app.userData.sessionRatings.length)
    (h10 : 10 ≤ ((sliceLast 15 app.userData.sessionRatings).filter
      (fun r => now - r.timestamp < 60000)).length)
    (hskip : (0.7 : ℚ) <
      ((((sliceLast 15 app.userData.sessionRatings).filter
          (fun r => now - r.timestamp < 60000)).filter
          (fun r => r.rating = "skip")).length : ℚ) /
        (((sliceLast 15 app.userData.sessionRatings).filter
          (fun r => now - r.timestamp < 60000)).length : ℚ)) :
    detectMindlessScrolling app now =
      ({ app with userData := { app.userData with
          mindlessScrollDetected := app.userData.mindlessScrollDetected + 1,
          lastNudgeTime := now } }, true) := by
  have hlen : (sliceLast 15 app.userData.sessionRatings).length = 15 := by
    simp only [sliceLast, List.length_drop]
    omega
  unfold detectMindlessScrolling
  rw [if_neg (by omega : ¬ (sliceLast 15 app.userData.sessionRatings).length < 15)]
  rw [if_pos h10]
  rw [if_pos hskip]

theorem C8_mindless_scroll_amended_witness :
    detectMindlessScrolling fifteenRatingSession 100000 =
      ({ fifteenRatingSession with userData := { fifteenRatingSession.userData with
          mindlessScrollDetected := fifteenRatingSession.userData.mindlessScrollDetected + 1,
          lastNudgeTime := 100000 } }, true) :=
  C8_mindless_scroll_amended fifteenRatingSession 100000 (by decide) (by decide) (by decide)

/-! ## Pipeline frame lemmas -/

theorem jsRound_nonneg {q : ℚ} (h : 0 ≤ q) : 0 ≤ jsRound q := by
  have := jsRound_mono h
  rwa [show jsRound (0 : ℚ) = 0 from by rw [show ((0:ℚ)) = ((0 : ℤ) : ℚ) by norm_num, jsRound_intCast]] at this

theorem detect_nudgeOnlyDiff (a : App) (now : Nat) :
    nudgeOnlyDiff a (detectMindlessScrolling a now).1 := by
  unfold nudgeOnlyDiff detectMindlessScrolling
  by_cases h1 : (sliceLast 15 a.userData.sessionRatings).length < 15
  · rw [if_pos h1]
  · rw [if_neg h1]
    by_cases h2 : ((sliceLast 15 a.userData.sessionRatings).filter
        (fun r => now - r.timestamp < 60000)).length ≥ 10
    · rw [if_pos h2]
      dsimp only
      split_ifs <;> rfl
    · rw [if_neg h2]

theorem coach_nudgeOnlyDiff (a : App) (now pick : Nat) :
    nudgeOnlyDiff a (provideLiveCoaching a now pick) := by
  unfold nudgeOnlyDiff provideLiveCoaching
  dsimp only
  split_ifs <;> (dsimp only; try rfl) <;> split_ifs <;> rfl

theorem calc_userData_frame (app : App) (now : Nat) :
    (calculateWellnessScore app now).1.userData.xp = app.userData.xp ∧
    (calculateWellnessScore app now).1.userData.qualityStreakCurrent
      = app.userData.qualityStreakCurrent ∧
    (calculateWellnessScore app now).1.userData.qualityStreakBest
      = app.userData.qualityStreakBest ∧
    (calculateWellnessScore app now).1.userData.dailyChallenge
      = app.userData.dailyChallenge ∧
    (calculateWellnessScore app now).1.userData.achievements
      = app.userData.achievements := ⟨rfl, rfl, rfl, rfl, rfl⟩

theorem checkAchievements_frame (u : UserData) (now : Nat) :
    (checkAchievements u now).qualityStreakCurrent = u.qualityStreakCurrent ∧
    (checkAchievements u now).qualityStreakBest = u.qualityStreakBest ∧
    (checkAchievements u now).dailyChallenge = u.dailyChallenge ∧
    (checkAchievements u now).contentRatings = u.contentRatings := by
  have h := checkAchievements_diff u now
  refine ⟨?_, ?_, ?_, ?_⟩ <;> rw [h]

theorem achRewards_nonneg : ∀ d ∈ achievementDefinitions, 0 ≤ d.xpReward := by
  intro d hd
  revert hd
  simp only [achievementDefinitions, List.mem_cons, List.not_mem_nil, or_false]
  rintro (rfl|rfl|rfl|rfl|rfl|rfl|rfl|rfl|rfl|rfl|rfl|rfl|rfl) <;> norm_num

theorem achStep_xp_mono (now : Nat) (u : UserData) (d : AchievementDef)
    (h : 0 ≤ d.xpReward) : u.xp ≤ (achStep now u d).xp := by
  unfold achStep
  split_ifs
  · exact le_refl _
  · rw [addActivity_xp]
    dsimp only
    omega
  · exact le_refl _

theorem runDefs_xp_mono (ds : List AchievementDef) (u : UserData) (now : Nat)
    (h : ∀ d ∈ ds, 0 ≤ d.xpReward) : u.xp ≤ (ds.foldl (achStep now) u).xp := by
  induction ds generalizing u with
  | nil => exact le_refl _
  | cons d rest ih =>
    rw [List.foldl_cons]
    exact le_trans (achStep_xp_mono now u d (h d (List.mem_cons_self _ _)))
      (ih (achStep now u d) (fun e he => h e (List.mem_cons_of_mem _ he)))

theorem checkAchievements_xp_mono (u : UserData) (now : Nat) :
    u.xp ≤ (checkAchievements u now).xp :=
  runDefs_xp_mono achievementDefinitions u now achRewards_nonneg

theorem generate_frame (u : UserData) (today : String) (pick : Nat) :
    (generateDailyChallenge u today pick).xp = u.xp ∧
    (generateDailyChallenge u today pick).qualityStreakCurrent = u.qualityStreakCurrent ∧
    (generateDailyChallenge u today pick).qualityStreakBest = u.qualityStreakBest := by
  unfold generateDailyChallenge
  dsimp only
  split_ifs <;> exact ⟨rfl, rfl, rfl⟩

theorem update_quality_frame (u : UserData) (today : String) (dayOf : Nat → String)
    (pick now : Nat) :
    (updateDailyChallengeProgress u today dayOf pick now).qualityStreakCurrent
      = u.qualityStreakCurrent ∧
    (updateDailyChallengeProgress u today dayOf pick now).qualityStreakBest
      = u.qualityStreakBest := by
  unfold updateDailyChallengeProgress
  cases hc : u.dailyChallenge with
  | none => exact ⟨rfl, rfl⟩
  | some c =>
    dsimp only
    split_ifs with h1 h2
    · exact ⟨(generate_frame u today pick).2.1, (generate_frame u today pick).2.2⟩
    · constructor
      · rw [(checkAchievements_frame _ now).1]
      · rw [(checkAchievements_frame _ now).2.1]
    · exact ⟨rfl, rfl⟩

theorem update_xp_mono (u : UserData) (today : String) (dayOf : Nat → String)
    (pick now : Nat) (h : ∀ c, u.dailyChallenge = some c → 0 ≤ c.xpReward) :
    u.xp ≤ (updateDailyChallengeProgress u today dayOf pick now).xp := by
  unfold updateDailyChallengeProgress
  cases hc : u.dailyChallenge with
  | none => exact le_refl _
  | some c =>
    dsimp only
    split_ifs with h1 h2
    · rw [(generate_frame u today pick).1]
    · refine le_trans ?_ (checkAchievements_xp_mono _ now)
      dsimp only
      have := h c hc
      omega
    · exact le_refl _

theorem nudgeOnlyDiff_xp {a b : App} (h : nudgeOnlyDiff a b) :
    b.userData.xp = a.userData.xp := by rw [show b = _ from h]

theorem nudgeOnlyDiff_q_cur {a b : App} (h : nudgeOnlyDiff a b) :
    b.userData.qualityStreakCurrent = a.userData.qualityStreakCurrent := by
  rw [show b = _ from h]

theorem nudgeOnlyDiff_q_best {a b : App} (h : nudgeOnlyDiff a b) :
    b.userData.qualityStreakBest = a.userData.qualityStreakBest := by
  rw [show b = _ from h]

theorem pushRatingEvent_frame (u : UserData) (rd : Rating) (rating : String) :
    (pushRatingEvent u rd rating).qualityStreakCurrent = u.qualityStreakCurrent ∧
    (pushRatingEvent u rd rating).qualityStreakBest = u.qualityStreakBest ∧
    (pushRatingEvent u rd rating).xp = u.xp ∧
    (pushRatingEvent u rd rating).dailyChallenge = u.dailyChallenge ∧
    (pushRatingEvent u rd rating).streak = u.streak := by
  unfold pushRatingEvent
  dsimp only
  split_ifs <;> exact ⟨rfl, rfl, rfl, rfl, rfl⟩

theorem bumpHourly_frame (u : UserData) (rating : String) (aligned : Bool) (h : Nat) :
    (bumpHourlyEngagement u rating aligned h).qualityStreakCurrent = u.qualityStreakCurrent ∧
    (bumpHourlyEngagement u rating aligned h).qualityStreakBest = u.qualityStreakBest ∧
    (bumpHourlyEngagement u rating aligned h).xp = u.xp ∧
    (bumpHourlyEngagement u rating aligned h).dailyChallenge = u.dailyChallenge ∧
    (bumpHourlyEngagement u rating aligned h).streak = u.streak :=
  ⟨rfl, rfl, rfl, rfl, rfl⟩

theorem updateQualityStreak_frame (u : UserData) (rating : String) (aligned : Bool) :
    (updateQualityStreak u rating aligned).xp = u.xp ∧
    (updateQualityStreak u rating aligned).dailyChallenge = u.dailyChallenge ∧
    (updateQualityStreak u rating aligned).streak = u.streak := by
  unfold updateQualityStreak
  split_ifs <;> exact ⟨rfl, rfl, rfl⟩

theorem updateQualityStreak_hit (u : UserData) :
    (updateQualityStreak u "valuable" true).qualityStreakCurrent
      = u.qualityStreakCurrent + 1 ∧
    (updateQualityStreak u "valuable" true).qualityStreakBest
      = max u.qualityStreakBest (u.qualityStreakCurrent + 1) := by
  unfold updateQualityStreak
  rw [if_pos ⟨rfl, rfl⟩]
  exact ⟨rfl, rfl⟩

theorem updateQualityStreak_miss (u : UserData) (rating : String) (aligned : Bool)
    (h : ¬ (rating = "valuable" ∧ aligned = true)) :
    (updateQualityStreak u rating aligned).qualityStreakCurrent = 0 ∧
    (updateQualityStreak u rating aligned).qualityStreakBest = u.qualityStreakBest := by
  unfold updateQualityStreak
  rw [if_neg h]
  exact ⟨rfl, rfl⟩

theorem awardRatingXP_frame (u : UserData) (aligned : Bool) (rating : String) (now : Nat) :
    (awardRatingXP u aligned rating now).qualityStreakCurrent = u.qualityStreakCurrent ∧
    (awardRatingXP u aligned rating now).qualityStreakBest = u.qualityStreakBest ∧
    (awardRatingXP u aligned rating now).dailyChallenge = u.dailyChallenge := by
  unfold awardRatingXP addActivity
  dsimp only
  split_ifs <;> exact ⟨rfl, rfl, rfl⟩

theorem awardRatingXP_xp_mono (u : UserData) (aligned : Bool) (rating : String) (now : Nat) :
    u.xp ≤ (awardRatingXP u aligned rating now).xp := by
  unfold awardRatingXP addActivity
  dsimp only
  split_ifs <;> (try dsimp only) <;>
    (first
      | exact le_refl _
      | refine le_add_of_nonneg_right ?_) <;>
    (first
      | (apply jsRound_nonneg; norm_num)
      | norm_num)

theorem record_streak_hit (app : App) (contentId goal : String) (now currentHour : Nat) :
    (recordRatingStage app contentId goal true "valuable" now currentHour).userData.qualityStreakCurrent
      = app.userData.qualityStreakCurrent + 1 ∧
    (recordRatingStage app contentId goal true "valuable" now currentHour).userData.qualityStreakBest
      = max app.userData.qualityStreakBest (app.userData.qualityStreakCurrent + 1) := by
  unfold recordRatingStage
  dsimp only
  constructor
  · rw [(awardRatingXP_frame _ _ _ _).1, (updateQualityStreak_hit _).1,
      (bumpHourly_frame _ _ _ _).1, (pushRatingEvent_frame _ _ _).1]
  · rw [(awardRatingXP_frame _ _ _ _).2.1, (updateQualityStreak_hit _).2,
      (bumpHourly_frame _ _ _ _).1, (bumpHourly_frame _ _ _ _).2.1,
      (pushRatingEvent_frame _ _ _).1, (pushRatingEvent_frame _ _ _).2.1]

theorem record_streak_miss (app : App) (contentId goal : String) (aligned : Bool)
    (rating : String) (now currentHour : Nat)
    (h : ¬ (rating = "valuable" ∧ aligned = true)) :
    (recordRatingStage app contentId goal aligned rating now currentHour).userData.qualityStreakCurrent
      = 0 := by
  unfold recordRatingStage
  dsimp only
  rw [(awardRatingXP_frame _ _ _ _).1, (updateQualityStreak_miss _ _ _ h).1]

theorem record_xp_mono (app : App) (contentId goal : String) (aligned : Bool)
    (rating : String) (now currentHour : Nat) :
    app.userData.xp
      ≤ (recordRatingStage app contentId goal aligned rating now currentHour).userData.xp := by
  unfold recordRatingStage
  dsimp only
  refine le_trans ?_ (awardRatingXP_xp_mono _ _ _ _)
  rw [(updateQualityStreak_frame _ _ _).1, (bumpHourly_frame _ _ _ _).2.2.1,
    (pushRatingEvent_frame _ _ _).2.2.1]

theorem record_dailyChallenge (app : App) (contentId goal : String) (aligned : Bool)
    (rating : String) (now currentHour : Nat) :
    (recordRatingStage app contentId goal aligned rating now currentHour).userData.dailyChallenge
      = app.userData.dailyChallenge := by
  unfold recordRatingStage
  dsimp only
  rw [(awardRatingXP_frame _ _ _ _).2.2, (updateQualityStreak_frame _ _ _).2.1,
    (bumpHourly_frame _ _ _ _).2.2.2.1, (pushRatingEvent_frame _ _ _).2.2.2.1]

set_option maxHeartbeats 1000000 in
/-- The pipeline shape of `rateContent` (definitional). -/
theorem rateContent_pipeline (app : App) (contentId goal : String) (aligned : Bool)
    (rating : String) (now currentHour : Nat) (today : String)
    (dayOf : Nat → String) (pick pickMsg : Nat) :
    rateContent app contentId goal aligned rating now currentHour today dayOf pick pickMsg
      = (detectMindlessScrolling (provideLiveCoaching
          { (calculateWellnessScore
              (recordRatingStage app contentId goal aligned rating now currentHour) now).1 with
            userData := checkAchievements (updateDailyChallengeProgress
              (calculateWellnessScore
                (recordRatingStage app contentId goal aligned rating now currentHour) now).1.userData
              today dayOf pick now) now } now pickMsg) now).1 := rfl

set_option maxRecDepth 10000 in
theorem qualityRun_first_half :
    (List.range 10).foldl qualityStep qualityRunStart = midQualityState := by decide

set_option maxRecDepth 10000 in
theorem qualityRun_split :
    qualityRun = [10, 11, 12, 13, 14, 15, 16, 17, 18, 19].foldl qualityStep midQualityState := by
  rw [qualityRun, show List.range 20
      = List.range 10 ++ [10, 11, 12, 13, 14, 15, 16, 17, 18, 19] from by decide,
    List.foldl_append, qualityRun_first_half]

set_option maxRecDepth 10000 in
/-- C7: starting from the freshly constructed state (quality streak
current = best = 0, no unlocked achievements, no daily challenge), 20
consecutive Valuable-and-aligned ratings yield
`qualityStreak.current = qualityStreak.best = 20`, with "On a Roll"
(best ≥ 5, 150 XP) and "Unstoppable" (best ≥ 10, 300 XP) both unlocked and
their rewards summed into total XP: the final XP 1578 decomposes as 428
rating XP + 50 First Steps + 150 Mindful Master + 100 Quality Curator +
400 Alignment Master + (150 + 300) for the two streak achievements.
Moreover, in general, every Valuable-and-aligned rating increments
`current` and sets `best = max(best, current+1)`, and any other rating
resets `current` to 0. -/
theorem C7_quality_streak_scenario :
    (qualityRun.userData.qualityStreakCurrent = 20 ∧
     qualityRun.userData.qualityStreakBest = 20 ∧
     "quality_streak_5" ∈ qualityRun.userData.achievements ∧
     "quality_streak_10" ∈ qualityRun.userData.achievements ∧
     qualityRun.userData.xp = 428 + 50 + 150 + 100 + 400 + (150 + 300)) ∧
    (∀ (app : App) (contentId goal : String) (now currentHour : Nat) (today : String)
      (dayOf : Nat → String) (pick pickMsg : Nat),
      (rateContent app contentId goal true "valuable" now currentHour today dayOf pick pickMsg).userData.qualityStreakCurrent
        = app.userData.qualityStreakCurrent + 1 ∧
      (rateContent app contentId goal true "valuable" now currentHour today dayOf pick pickMsg).userData.qualityStreakBest
        = max app.userData.qualityStreakBest (app.userData.qualityStreakCurrent + 1)) ∧
    (∀ (app : App) (contentId goal : String) (aligned : Bool) (rating : String)
      (now currentHour : Nat) (today : String) (dayOf : Nat → String) (pick pickMsg : Nat),
      ¬ (rating = "valuable" ∧ aligned = true) →
      (rateContent app contentId goal aligned rating now currentHour today dayOf pick pickMsg).userData.qualityStreakCurrent
        = 0) := by
  refine ⟨by rw [qualityRun_split]; decide, ?_, ?_⟩
  · intro app contentId goal now currentHour today dayOf pick pickMsg
    rw [rateContent_pipeline]
    constructor
    · rw [nudgeOnlyDiff_q_cur (detect_nudgeOnlyDiff _ _),
        nudgeOnlyDiff_q_cur (coach_nudgeOnlyDiff _ _ _)]
      dsimp only
      rw [(checkAchievements_frame _ _).1, (update_quality_frame _ _ _ _ _).1,
        (calc_userData_frame _ _).2.1]
      exact (record_streak_hit app contentId goal now currentHour).1
    · rw [nudgeOnlyDiff_q_best (detect_nudgeOnlyDiff _ _),
        nudgeOnlyDiff_q_best (coach_nudgeOnlyDiff _ _ _)]
      dsimp only
      rw [(checkAchievements_frame _ _).2.1, (update_quality_frame _ _ _ _ _).2,
        (calc_userData_frame _ _).2.2.1]
      exact (record_streak_hit app contentId goal now currentHour).2
  · intro app contentId goal aligned rating now currentHour today dayOf pick pickMsg h
    rw [rateContent_pipeline]
    rw [nudgeOnlyDiff_q_cur (detect_nudgeOnlyDiff _ _),
      nudgeOnlyDiff_q_cur (coach_nudgeOnlyDiff _ _ _)]
    dsimp only
    rw [(checkAchievements_frame _ _).1, (update_quality_frame _ _ _ _ _).1,
      (calc_userData_frame _ _).2.1]
    exact record_streak_miss app contentId goal aligned rating now currentHour h

theorem C7_quality_streak_scenario_witness :
    (rateContent oneRatingApp "w" "learn" true "valuable" 7 3 "D0" (fun _ => "D0") 0 0).userData.qualityStreakCurrent
      = oneRatingApp.userData.qualityStreakCurrent + 1 ∧
    (rateContent oneRatingApp "w" "learn" false "skip" 7 3 "D0" (fun _ => "D0") 0 0).userData.qualityStreakCurrent
      = 0 :=
  ⟨(C7_quality_streak_scenario.2.1 oneRatingApp "w" "learn" 7 3 "D0" (fun _ => "D0") 0 0).1,
   C7_quality_streak_scenario.2.2 oneRatingApp "w" "learn" false "skip" 7 3 "D0" (fun _ => "D0") 0 0 (by decide)⟩

/-- C10: total XP is monotonically non-decreasing under every operation
that mutates XP — checking achievements, updating daily-challenge progress
(whose stored challenge reward is non-negative: every generated challenge
comes from the four templates with rewards 100/150/120/200), and rating an
item. -/
theorem C10_xp_monotone :
    (∀ (u : UserData) (now : Nat), u.xp ≤ (checkAchievements u now).xp) ∧
    (∀ (u : UserData) (today : String) (dayOf : Nat → String) (pick now : Nat),
      (∀ c, u.dailyChallenge = some c → 0 ≤ c.xpReward) →
      u.xp ≤ (updateDailyChallengeProgress u today dayOf pick now).xp) ∧
    (∀ (app : App) (contentId goal : String) (aligned : Bool) (rating : String)
      (now currentHour : Nat) (today : String) (dayOf : Nat → String) (pick pickMsg : Nat),
      (∀ c, app.userData.dailyChallenge = some c → 0 ≤ c.xpReward) →
      app.userData.xp
        ≤ (rateContent app contentId goal aligned rating now currentHour today dayOf pick pickMsg).userData.xp) := by
  refine ⟨checkAchievements_xp_mono, update_xp_mono, ?_⟩
  intro app contentId goal aligned rating now currentHour today dayOf pick pickMsg h
  rw [rateContent_pipeline]
  rw [nudgeOnlyDiff_xp (detect_nudgeOnlyDiff _ _), nudgeOnlyDiff_xp (coach_nudgeOnlyDiff _ _ _)]
  dsimp only
  have hch : ∀ c, (calculateWellnessScore
      (recordRatingStage app contentId goal aligned rating now currentHour) now).1.userData.dailyChallenge
      = some c → 0 ≤ c.xpReward := by
    intro c hc
    apply h c
    rw [← hc, (calc_userData_frame _ _).2.2.2.1,
      record_dailyChallenge app contentId goal aligned rating now currentHour]
  calc app.userData.xp
      ≤ (recordRatingStage app contentId goal aligned rating now currentHour).userData.xp :=
        record_xp_mono app contentId goal aligned rating now currentHour
    _ = (calculateWellnessScore
          (recordRatingStage app contentId goal aligned rating now currentHour) now).1.userData.xp :=
        ((calc_userData_frame _ _).1).symm
    _ ≤ (updateDailyChallengeProgress (calculateWellnessScore
          (recordRatingStage app contentId goal aligned rating now currentHour) now).1.userData
          today dayOf pick now).xp :=
        update_xp_mono _ today dayOf pick now hch
    _ ≤ (checkAchievements (updateDailyChallengeProgress (calculateWellnessScore
          (recordRatingStage app contentId goal aligned rating now currentHour) now).1.userData
          today dayOf pick now) now).xp :=
        checkAchievements_xp_mono _ now

theorem C10_xp_monotone_witness :
    oneRatingApp.userData.xp
      ≤ (rateContent oneRatingApp "w" "learn" true "valuable" 7 3 "D0" (fun _ => "D0") 0 0).userData.xp :=
  C10_xp_monotone.2.2 oneRatingApp "w" "learn" true "valuable" 7 3 "D0" (fun _ => "D0") 0 0
    (fun c hc => by simp [oneRatingApp, freshApp, freshUserData] at hc)
